import Mathlib

/-!
Shallow embedding of the ScanFlowEbayWeb evaluation engine, translated
from the Keepa/evaluation module of the repository (the file holding
isbn10to13, isbn13to10, validateIsbn, getAmazonPrices,
analyzeAmazonPresence, getSalesRankMetrics, getWeightInPounds,
calculateFBAProfit, calculateFBMProfit and evaluateBook) together with
its configuration table (DECISION and FEES).

Modelling conventions:
- JavaScript numbers are exact rationals; prices are dollars or Keepa
  cents exactly as in the source.
- Date.now() is passed in explicitly as the parameter now, in
  milliseconds.
- Keepa flat history arrays [time, value, time, value, ...] are
  modelled as lists of (time, value) sample pairs, which matches the
  source's index arithmetic exactly on even-length (well-formed)
  arrays.
- Rendering of numbers into the free-text reason field (toFixed,
  toLocaleString) is abstracted by ratStr; it never influences a
  decision, only the text.
- Rational division by zero yields 0 in Lean while JavaScript yields
  Infinity; the engine documents positive buy price as a caller
  precondition, and no theorem below depends on that corner.
-/

/-! ### JavaScript value helpers -/

/-- Truthiness of a nullable JavaScript number: null and 0 are falsy. -/
def jsTruthyQ : Option ℚ → Bool
  | none => false
  | some x => if x = 0 then false else true

/-- JavaScript a || b on nullable numbers. -/
def jsOrQ (a b : Option ℚ) : Option ℚ := if jsTruthyQ a then a else b

/-- JavaScript Math.round: round half toward positive infinity. -/
def jsRound (q : ℚ) : ℤ := ⌊q + 1 / 2⌋

/-- ASCII decimal digit test (character code between 48 and 57). -/
def isDigitChar (c : Char) : Bool := 48 ≤ c.toNat && c.toNat ≤ 57

/-- JavaScript parseInt on a single character: a digit value or NaN
(modelled as none). -/
def jsParseDigit (c : Char) : Option ℕ :=
  if isDigitChar c then some (c.toNat - 48) else none

/-- Characters removed by the source's replace of hyphens and
whitespace. -/
def isSepChar (c : Char) : Bool :=
  c == '-' || c == ' ' || c == '\t' || c == '\n' || c == '\r'

/-- The source's replace removing hyphens and whitespace. -/
def stripSep (l : List Char) : List Char := l.filter (fun c => !(isSepChar c))

/-- JavaScript toUpperCase on one ASCII character. -/
def jsToUpperChar (c : Char) : Char :=
  if 97 ≤ c.toNat ∧ c.toNat ≤ 122 then Char.ofNat (c.toNat - 32) else c

/-! ### ISBN utilities (source functions isbn10to13 / isbn13to10 /
validateIsbn) -/

/-- Weighted 1,3,1,3,... digit sum used for 13-digit checksums; the
index argument carries the position parity.  A non-digit character
poisons the sum (NaN), modelled as none. -/
def wsum13Aux : List Char → ℕ → Option ℕ
  | [], _ => some 0
  | c :: cs, i =>
    match jsParseDigit c, wsum13Aux cs (i + 1) with
    | some d, some s => some (d * (if i % 2 = 0 then 1 else 3) + s)
    | _, _ => none

/-- Weighted 10,9,...,2 digit sum used for the first nine characters of
a 10-digit identifier. -/
def wsum10Aux : List Char → ℕ → Option ℕ
  | [], _ => some 0
  | c :: cs, i =>
    match jsParseDigit c, wsum10Aux cs (i + 1) with
    | some d, some s => some (d * (10 - i) + s)
    | _, _ => none

/-- Source isbn10to13: prepend 978 to the first nine characters and
append a freshly computed mod-10 check digit.  The input checksum is
never verified. -/
def isbn10to13 (isbn10 : List Char) : Option (List Char) :=
  let clean := stripSep isbn10
  if clean.length ≠ 10 then none
  else
    let base := ['9', '7', '8'] ++ clean.take 9
    match wsum13Aux base 0 with
    | none => some (base ++ ['N', 'a', 'N'])
    | some s => some (base ++ [Char.ofNat (48 + (10 - s % 10) % 10)])

/-- Source isbn13to10: require a 978 start, take digits 3..11 and
append a freshly computed mod-11 check character. -/
def isbn13to10 (isbn13 : List Char) : Option (List Char) :=
  let clean := stripSep isbn13
  if clean.length ≠ 13 then none
  else if clean.take 3 ≠ ['9', '7', '8'] then none
  else
    let base := (clean.drop 3).take 9
    match wsum10Aux base 0 with
    | none => some (base ++ ['N', 'a', 'N'])
    | some s =>
      let r := s % 11
      let cd : List Char :=
        if r = 0 then ['0']
        else if r = 1 then ['X'] else [Char.ofNat (48 + (11 - r))]
      some (base ++ cd)

/-- Result record of validateIsbn. -/
structure IsbnValidation where
  valid : Bool
  error : Option String
deriving DecidableEq

/-- The regular expression digits-then-optional-X (case insensitive)
used by validateIsbn. -/
def regexDigitsOptX (l : List Char) : Bool :=
  match l.getLast? with
  | none => false
  | some c =>
    if c == 'X' || c == 'x' then
      !l.dropLast.isEmpty && l.dropLast.all isDigitChar
    else l.all isDigitChar

/-- Source validateIsbn.  For ten characters, the 10..2-weighted sum
plus the final character's value (X counting as 10) must be divisible
by 11; for thirteen characters the recomputed mod-10 check digit must
equal the final digit.  No 978/979 start is required. -/
def validateIsbn (isbn : List Char) : IsbnValidation :=
  let clean := stripSep isbn
  if clean.isEmpty then ⟨false, some "ISBN is empty"⟩
  else if !regexDigitsOptX clean then
    ⟨false, some "ISBN must contain only digits (and X for ISBN-10)"⟩
  else if clean.length = 10 then
    let sum9 := wsum10Aux (clean.take 9) 0
    let lastVal : Option ℕ :=
      match clean.get? 9 with
      | none => none
      | some c =>
        if jsToUpperChar c == 'X' then some 10
        else jsParseDigit (jsToUpperChar c)
    match sum9, lastVal with
    | some s, some v =>
      if (s + v) % 11 = 0 then ⟨true, none⟩
      else ⟨false, some "Invalid ISBN-10 checksum"⟩
    | _, _ => ⟨false, some "Invalid ISBN-10 checksum"⟩
  else if clean.length = 13 then
    match wsum13Aux (clean.take 12) 0, clean.get? 12 >>= jsParseDigit with
    | some s, some d =>
      if (10 - s % 10) % 10 = d then ⟨true, none⟩
      else ⟨false, some "Invalid ISBN-13 checksum"⟩
    | _, _ => ⟨false, some "Invalid ISBN-13 checksum"⟩
  else
    ⟨false, some ("ISBN must be 10 or 13 digits (got " ++
      toString clean.length ++ ")")⟩

/-! ### Configuration (source config module: DECISION and FEES) -/

namespace DECISION

namespace BUY

def MULTIPLIER : ℚ := 6

def MAX_SALES_RANK : ℚ := 1500000

def MAX_SALES_RANK_CHEAP : ℚ := 2000000

def CHEAP_PRICE_THRESHOLD : ℚ := 6

def MIN_DROPS_90 : ℚ := 3

def HIGH_PROFIT_MIN_FBM : ℚ := 60

def HIGH_PROFIT_MAX_RANK : ℚ := 1000000

def HIGH_PROFIT_MIN_DROPS : ℚ := 10

end BUY

namespace REVIEW

def MULTIPLIER : ℚ := 4

def MAX_SALES_RANK : ℚ := 2500000

def MIN_DROPS_90 : ℚ := 2

end REVIEW

namespace KNOCKOUT

def MAX_SALES_RANK : ℚ := 3000000

end KNOCKOUT

end DECISION

namespace FEES

def REFERRAL_FEE_PERCENT : ℚ := 0.15

def CLOSING_FEE : ℚ := 1.80

def FBA_FULFILLMENT_FEE : ℚ := 3.50

def FBM_SHIPPING_COST : ℚ := 4.00

end FEES

/-- Keepa base time: 2011-01-01 UTC in milliseconds. -/
def KEEPA_BASE_TIME : ℚ := 1293840000000

/-! ### Data model (source KeepaProductRaw, trimmed to the fields the
evaluation engine reads) -/

/-- stats sub-object of a Keepa product; fields the engine never reads
are omitted. -/
structure KeepaStats where
  avg : Option (List ℚ) := none
  avg90 : Option (List ℚ) := none
  salesRankDrops90 : Option ℚ := none
deriving DecidableEq

/-- Raw Keepa product, trimmed to the fields the evaluation engine
reads.  csv is the array of per-channel flat histories, here as lists
of (time, value) sample pairs. -/
structure KeepaProductRaw where
  asin : String := ""
  csv : Option (List (Option (List (ℚ × ℚ)))) := none
  stats : Option KeepaStats := none
  binding : Option String := none
  packageWeight : Option ℚ := none
  itemWeight : Option ℚ := none
deriving DecidableEq

/-- Indexing csv by channel: an absent csv, a short array, or a null
channel all give none (JavaScript undefined / null). -/
def csvGet (csv : Option (List (Option (List (ℚ × ℚ))))) (i : ℕ) :
    Option (List (ℚ × ℚ)) :=
  match csv with
  | none => none
  | some l => (l.get? i).join

/-! ### Price channel extraction (source getLastPrice /
getAmazonPrices) -/

/-- Source getLastPrice: the value of the last sample if positive,
converted from cents to dollars. -/
def getLastPrice : Option (List (ℚ × ℚ)) → Option ℚ
  | none => none
  | some l =>
    match l.getLast? with
    | none => none
    | some p => if p.2 > 0 then some (p.2 / 100) else none

/-- Output record of getAmazonPrices: current and 180-day average
prices for the Amazon-FBA, new-third-party and used channels. -/
structure AmazonPrices where
  currentFba : Option ℚ
  currentNewFBM : Option ℚ
  currentUsed : Option ℚ
  avg180Fba : Option ℚ
  avg180NewFBM : Option ℚ
  avg180Used : Option ℚ
deriving DecidableEq

/-- Source getAmazonPrices.  Channel csv indices: NEW_FBA = 10,
NEW = 1, USED = 2; stats.avg indices are the same for these
channels. -/
def getAmazonPrices (raw : KeepaProductRaw) : AmazonPrices :=
  let statAvg : ℕ → Option ℚ := fun i =>
    match raw.stats with
    | none => none
    | some st =>
      match st.avg with
      | none => none
      | some a =>
        match a.get? i with
        | some v => if v > 0 then some (v / 100) else none
        | none => none
  { currentFba := getLastPrice (csvGet raw.csv 10)
    currentNewFBM := getLastPrice (csvGet raw.csv 1)
    currentUsed := getLastPrice (csvGet raw.csv 2)
    avg180Fba := statAvg 10
    avg180NewFBM := statAvg 1
    avg180Used := statAvg 2 }

/-! ### Amazon first-party presence analysis
(source analyzeAmazonPresence) -/

/-- Tri-state competitive flag. -/
inductive AmazonFlag where
  | green
  | yellow
  | red
deriving DecidableEq

/-- Output record of analyzeAmazonPresence. -/
structure AmazonPresence where
  stockoutPercent : Option ℤ
  realisticPrice : Option ℚ
  amazonFlag : Option AmazonFlag
deriving DecidableEq

/-- Buy-box samples recorded during one stockout period: every sample
except the last whose timestamp lies in [periodStart, periodEnd] and
whose value is positive, in cents converted to dollars. -/
def collectBB (buyBox : Option (List (ℚ × ℚ))) (ps pe : ℚ) : List ℚ :=
  match buyBox with
  | none => []
  | some l =>
    if l.isEmpty then []
    else
      l.dropLast.filterMap (fun p =>
        let bbTime := KEEPA_BASE_TIME + p.1 * 60 * 1000
        if ps ≤ bbTime ∧ bbTime ≤ pe ∧ p.2 > 0 then some (p.2 / 100)
        else none)

/-- The main walk over consecutive first-party sample pairs, clipped to
[cutoff, now]: returns (totalPeriods, stockoutPeriods, buy-box prices
seen while out of stock), durations in minutes. -/
def presencePairs (cutoff now : ℚ) (buyBox : Option (List (ℚ × ℚ))) :
    List ((ℚ × ℚ) × (ℚ × ℚ)) → ℚ × ℚ × List ℚ
  | [] => (0, 0, [])
  | (p, q) :: rest =>
    let acc := presencePairs cutoff now buyBox rest
    let time := KEEPA_BASE_TIME + p.1 * 60 * 1000
    let nextTime := KEEPA_BASE_TIME + q.1 * 60 * 1000
    if nextTime < cutoff then acc
    else
      let periodStart := max time cutoff
      let periodEnd := min nextTime now
      let periodDuration := (periodEnd - periodStart) / (60 * 1000)
      if periodDuration ≤ 0 then acc
      else if p.2 = -1 then
        (acc.1 + periodDuration, acc.2.1 + periodDuration,
          collectBB buyBox periodStart periodEnd ++ acc.2.2)
      else (acc.1 + periodDuration, acc.2.1, acc.2.2)

/-- The open-ended final period from the last sample to now. -/
def lastPeriodStats (cutoff now : ℚ) (buyBox : Option (List (ℚ × ℚ)))
    (pairs : List (ℚ × ℚ)) : ℚ × ℚ × List ℚ :=
  match pairs.getLast? with
  | none => (0, 0, [])
  | some p =>
    let lastTime := KEEPA_BASE_TIME + p.1 * 60 * 1000
    if lastTime < now then
      let periodStart := max lastTime cutoff
      let periodDuration := (now - periodStart) / (60 * 1000)
      if periodDuration > 0 then
        if p.2 = -1 then
          let bbs : List ℚ :=
            match buyBox with
            | none => []
            | some l =>
              match l.getLast? with
              | none => []
              | some q => if q.2 > 0 then [q.2 / 100] else []
          (periodDuration, periodDuration, bbs)
        else (periodDuration, 0, [])
      else (0, 0, [])
    else (0, 0, [])

/-- Accumulated totals over the trailing 90-day window for a
first-party history: main pair walk plus the final open period. -/
def presenceStats (pairs : List (ℚ × ℚ)) (buyBox : Option (List (ℚ × ℚ)))
    (now : ℚ) : ℚ × ℚ × List ℚ :=
  let cutoff := now - 90 * 24 * 60 * 60 * 1000
  let m := presencePairs cutoff now buyBox (pairs.zip pairs.tail)
  let l := lastPeriodStats cutoff now buyBox pairs
  (m.1 + l.1, m.2.1 + l.2.1, m.2.2 ++ l.2.2)

/-- Stockout percentage: rounded ratio when any duration was observed,
else null. -/
def stockoutPercentOf (tot so : ℚ) : Option ℤ :=
  if tot > 0 then some (jsRound (so / tot * 100)) else none

/-- Flag from the stockout percentage: green above 50, yellow from 20
to 50, red below 20, null without data. -/
def flagOf : Option ℤ → Option AmazonFlag
  | none => none
  | some p =>
    if p > 50 then some .green
    else if p ≥ 20 then some .yellow else some .red

/-- Ascending insertion into a sorted list. -/
def insertSorted (x : ℚ) : List ℚ → List ℚ
  | [] => [x]
  | y :: ys => if x ≤ y then x :: y :: ys else y :: insertSorted x ys

/-- Ascending sort, the result of the source's numeric sort
comparator. -/
def sortAsc : List ℚ → List ℚ
  | [] => []
  | x :: xs => insertSorted x (sortAsc xs)

/-- Median as in the source: average of the two middle values of the
sorted list on even length, middle value on odd length. -/
def medianOf (l : List ℚ) : ℚ :=
  let sorted := sortAsc l
  let mid := sorted.length / 2
  if sorted.length % 2 = 0 then (sorted.getD (mid - 1) 0 + sorted.getD mid 0) / 2
  else sorted.getD mid 0

/-- The realistic-price step: median of stockout buy-box prices when
any exist; else, exactly when the stockout percentage equals 0, the
current third-party price with the flag forced red. -/
def realisticStep (pct : Option ℤ) (flag : Option AmazonFlag)
    (bbs : List ℚ) (newThirdParty : Option (List (ℚ × ℚ))) : AmazonPresence :=
  if bbs ≠ [] then ⟨pct, some (medianOf bbs), flag⟩
  else if pct = some 0 then
    match newThirdParty with
    | none => ⟨pct, none, flag⟩
    | some l =>
      match l.getLast? with
      | none => ⟨pct, none, flag⟩
      | some p =>
        if p.2 > 0 then ⟨pct, some (p.2 / 100), some .red⟩
        else ⟨pct, none, flag⟩
  else ⟨pct, none, flag⟩

/-- Source analyzeAmazonPresence.  Channel csv indices: AMAZON = 0,
NEW = 1, BUY_BOX = 18. -/
def analyzeAmazonPresence (raw : KeepaProductRaw) (now : ℚ) : AmazonPresence :=
  let amazon1P := csvGet raw.csv 0
  let buyBox := csvGet raw.csv 18
  let newThirdParty := csvGet raw.csv 1
  match amazon1P with
  | none => ⟨none, none, none⟩
  | some pairs =>
    if pairs.isEmpty then ⟨none, none, none⟩
    else
      let s := presenceStats pairs buyBox now
      let pct := stockoutPercentOf s.1 s.2.1
      realisticStep pct (flagOf pct) s.2.2 newThirdParty

/-! ### Sales-rank metrics, weight, fees (source getSalesRankMetrics /
getWeightInPounds / calculateFBAProfit / calculateFBMProfit) -/

/-- Output of getSalesRankMetrics. -/
structure SalesRankMetrics where
  avgSalesRank : Option ℚ
  salesRankDrops90 : ℚ
deriving DecidableEq

/-- Source getSalesRankMetrics: 180-day average rank preferred, then
the 90-day average, both read at stats index SALES_RANK = 3; drop count
defaulting to 0. -/
def getSalesRankMetrics (raw : KeepaProductRaw) : SalesRankMetrics :=
  match raw.stats with
  | none => ⟨none, 0⟩
  | some stats =>
    let fromArr : Option (List ℚ) → Option ℚ := fun o =>
      match o with
      | none => none
      | some a =>
        match a.get? 3 with
        | some v => if v > 0 then some v else none
        | none => none
    let avgSalesRank :=
      match fromArr stats.avg with
      | some v => some v
      | none => fromArr stats.avg90
    ⟨avgSalesRank, (stats.salesRankDrops90).getD 0⟩

/-- Source getWeightInPounds: item weight preferred over package
weight, grams to pounds. -/
def getWeightInPounds (raw : KeepaProductRaw) : Option ℚ :=
  match raw.itemWeight with
  | some w =>
    if w > 0 then some (w / 453.592)
    else
      match raw.packageWeight with
      | some w2 => if w2 > 0 then some (w2 / 453.592) else none
      | none => none
  | none =>
    match raw.packageWeight with
    | some w2 => if w2 > 0 then some (w2 / 453.592) else none
    | none => none

/-- Source calculateFBAProfit (dollars). -/
def calculateFBAProfit (buyPrice sellPrice : ℚ) : ℚ :=
  let referralFee := sellPrice * FEES.REFERRAL_FEE_PERCENT
  let totalFees := referralFee + FEES.CLOSING_FEE + FEES.FBA_FULFILLMENT_FEE
  sellPrice - buyPrice - totalFees

/-- Source calculateFBMProfit (dollars). -/
def calculateFBMProfit (buyPrice sellPrice : ℚ) : ℚ :=
  let referralFee := sellPrice * FEES.REFERRAL_FEE_PERCENT
  let totalFees := referralFee + FEES.CLOSING_FEE + FEES.FBM_SHIPPING_COST
  sellPrice - buyPrice - totalFees

/-! ### Decision logic (source evaluateBook) -/

/-- The three decisions. -/
inductive Decision where
  | BUY
  | REVIEW
  | REJECT
deriving DecidableEq

/-- Output record of evaluateBook. -/
structure EvaluationResult where
  decision : Decision
  reason : String
  amazonPrice : Option ℚ
  fbaProfit : Option ℚ
  fbmProfit : Option ℚ
  salesRank : Option ℚ
  salesRankDrops90 : ℚ
  asin : String
  amazonFlag : Option AmazonFlag
  weightLbs : Option ℚ
  binding : Option String
  multiplier : Option ℚ
deriving DecidableEq

/-- Abstract rendering of a rational into reason text, standing in for
the source's toFixed / toLocaleString; only ever concatenated into the
free-text reason. -/
def ratStr (q : ℚ) : String := toString q.num ++ "/" ++ toString q.den

/-- The sell price evaluateBook uses: the realistic price from the
presence analysis when truthy, else the minimum of the first truthy
180-day average price and the first truthy current price (each chained
fba, then new, then used), or whichever of the two exists. -/
def determineSellPrice (prices : AmazonPrices) (analysis : AmazonPresence) :
    Option ℚ :=
  if jsTruthyQ analysis.realisticPrice then analysis.realisticPrice
  else
    let avgPrice := jsOrQ (jsOrQ prices.avg180Fba prices.avg180NewFBM)
      prices.avg180Used
    let currentPrice := jsOrQ (jsOrQ prices.currentFba prices.currentNewFBM)
      prices.currentUsed
    if jsTruthyQ avgPrice && jsTruthyQ currentPrice then
      match avgPrice, currentPrice with
      | some a, some c => some (min a c)
      | _, _ => none
    else jsOrQ avgPrice currentPrice

/-- One evaluation-result record; the fields present from the start of
every evaluateBook run (salesRank, drops, asin, weight, binding) are
filled from the snapshot, the rest vary per return site. -/
def mkResult (raw : KeepaProductRaw) (metrics : SalesRankMetrics)
    (d : Decision) (reason : String) (flag : Option AmazonFlag)
    (ap fba fbm mult : Option ℚ) : EvaluationResult :=
  { decision := d
    reason := reason
    amazonPrice := ap
    fbaProfit := fba
    fbmProfit := fbm
    salesRank := metrics.avgSalesRank
    salesRankDrops90 := metrics.salesRankDrops90
    asin := raw.asin
    amazonFlag := flag
    weightLbs := getWeightInPounds raw
    binding := raw.binding
    multiplier := mult }

/-- Continuation of evaluateBook once a nonzero sell price ap is fixed
(source steps 3 to 6): the multiplier knockout, the profit figures, the
zero-drops knockout, then the BUY tier or high-profit exception, then
REVIEW, else REJECT with the failed criteria. -/
def evalWithPrice (raw : KeepaProductRaw) (metrics : SalesRankMetrics)
    (rank : ℚ) (analysis : AmazonPresence) (buyPriceDollars ap : ℚ) :
    EvaluationResult :=
  let multiplier := ap / buyPriceDollars
  if multiplier < DECISION.REVIEW.MULTIPLIER then
    mkResult raw metrics .REJECT
      ("Multiplier " ++ ratStr multiplier ++ "x < 4x")
      analysis.amazonFlag (some ap) none none (some multiplier)
  else
    let fba := calculateFBAProfit buyPriceDollars ap
    let fbm := calculateFBMProfit buyPriceDollars ap
    if metrics.salesRankDrops90 = 0 then
      mkResult raw metrics .REJECT "No sales in 90 days (drops90 = 0)"
        analysis.amazonFlag (some ap) (some fba) (some fbm)
        (some multiplier)
    else
      let buyMaxRank :=
        if buyPriceDollars < DECISION.BUY.CHEAP_PRICE_THRESHOLD
        then DECISION.BUY.MAX_SALES_RANK_CHEAP
        else DECISION.BUY.MAX_SALES_RANK
      let metricsStr := ratStr multiplier ++ "x | Rank: " ++
        ratStr rank ++ " | Drops: " ++ ratStr metrics.salesRankDrops90
      if multiplier ≥ DECISION.BUY.MULTIPLIER ∧ rank < buyMaxRank ∧
          metrics.salesRankDrops90 ≥ DECISION.BUY.MIN_DROPS_90 ∨
          fbm ≥ DECISION.BUY.HIGH_PROFIT_MIN_FBM ∧
          rank < DECISION.BUY.HIGH_PROFIT_MAX_RANK ∧
          metrics.salesRankDrops90 ≥ DECISION.BUY.HIGH_PROFIT_MIN_DROPS
      then
        mkResult raw metrics .BUY
          (if fbm ≥ DECISION.BUY.HIGH_PROFIT_MIN_FBM ∧
              rank < DECISION.BUY.HIGH_PROFIT_MAX_RANK ∧
              metrics.salesRankDrops90 ≥
                DECISION.BUY.HIGH_PROFIT_MIN_DROPS
          then metricsStr ++ " | HIGH_PROFIT FBM $" ++ ratStr fbm
          else metricsStr)
          analysis.amazonFlag (some ap) (some fba) (some fbm)
          (some multiplier)
      else if multiplier ≥ DECISION.REVIEW.MULTIPLIER ∧
          rank < DECISION.REVIEW.MAX_SALES_RANK ∧
          metrics.salesRankDrops90 ≥ DECISION.REVIEW.MIN_DROPS_90
      then
        mkResult raw metrics .REVIEW metricsStr analysis.amazonFlag
          (some ap) (some fba) (some fbm) (some multiplier)
      else
        let failed : List String :=
          (if multiplier < DECISION.REVIEW.MULTIPLIER then
            [ratStr multiplier ++ "x < 4x"] else []) ++
          (if rank ≥ DECISION.REVIEW.MAX_SALES_RANK then
            ["rank " ++ ratStr rank ++ " > 2.5M"] else []) ++
          (if metrics.salesRankDrops90 < DECISION.REVIEW.MIN_DROPS_90
            then ["drops " ++ ratStr metrics.salesRankDrops90 ++ " < 2"]
            else [])
        mkResult raw metrics .REJECT
          (if failed = [] then metricsStr
            else String.intercalate ", " failed)
          analysis.amazonFlag (some ap) (some fba) (some fbm)
          (some multiplier)

/-- Source evaluateBook: ordered knockouts (unknown rank, rank above
3M, no usable price), then the continuation evalWithPrice holding the
multiplier knockout, the zero-drops knockout and the tier logic. -/
def evaluateBook (raw : KeepaProductRaw) (buyPriceDollars : ℚ) (now : ℚ) :
    EvaluationResult :=
  let metrics := getSalesRankMetrics raw
  match metrics.avgSalesRank with
  | none =>
    mkResult raw metrics .REJECT "Unknown sales rank" none none none none none
  | some rank =>
    if rank = 0 then
      mkResult raw metrics .REJECT "Unknown sales rank" none none none none none
    else if rank > DECISION.KNOCKOUT.MAX_SALES_RANK then
      mkResult raw metrics .REJECT ("Rank " ++ ratStr rank ++ " > 3M") none
        none none none none
    else
      let prices := getAmazonPrices raw
      let analysis := analyzeAmazonPresence raw now
      match determineSellPrice prices analysis with
      | none =>
        mkResult raw metrics .REJECT "No Amazon price data" analysis.amazonFlag
          none none none none
      | some ap =>
        if ap = 0 then
          mkResult raw metrics .REJECT "No Amazon price data"
            analysis.amazonFlag none none none none
        else evalWithPrice raw metrics rank analysis buyPriceDollars ap

/-- Follows the spec's words only (refinement comparison for the
best-available fallback price): a single best available price chosen by
channel priority fba, then new, then used, first non-null value
winning, read over the extractor's current prices. -/
def specBestAvailablePrice (p : AmazonPrices) : Option ℚ :=
  jsOrQ (jsOrQ p.currentFba p.currentNewFBM) p.currentUsed

/-- The min-of-both-chains fallback the source actually computes when
the presence analysis yields no realistic price. -/
def specMinFallback (p : AmazonPrices) : Option ℚ :=
  let avgPrice := jsOrQ (jsOrQ p.avg180Fba p.avg180NewFBM) p.avg180Used
  let currentPrice := jsOrQ (jsOrQ p.currentFba p.currentNewFBM) p.currentUsed
  if jsTruthyQ avgPrice && jsTruthyQ currentPrice then
    match avgPrice, currentPrice with
    | some a, some c => some (min a c)
    | _, _ => none
  else jsOrQ avgPrice currentPrice

/-- Checksum condition of a 13-character identifier exactly as the
spec words it: the 1,3,1,3,...-weighted sum of the first twelve digits
determines a mod-10 check digit that must equal the final digit. -/
def isbn13ChecksumOk (l : List Char) : Bool :=
  match wsum13Aux (l.take 12) 0, l.get? 12 >>= jsParseDigit with
  | some s, some d => (10 - s % 10) % 10 == d
  | _, _ => false

/-! ### Claim C1: the high-profit override versus the multiplier
knockout -/

/-- Concrete snapshot for C1: rank 500,000, 12 drops in 90 days, and a
180-day average FBA price of 161600/7 cents, i.e. 1616/7 dollars, twice
the buy price of 808/7 dollars, giving merchant profit exactly $75. -/
def c1raw : KeepaProductRaw :=
  { stats := some
      { avg := some [0, 0, 0, 500000, 0, 0, 0, 0, 0, 0, 161600 / 7]
        salesRankDrops90 := some 12 } }

/-- C1 counterexample: at an input with multiplier exactly 2, merchant
(FBM) profit exactly $75, rank 500,000 and 90-day drops 12 — so every
high-profit-override condition on profit, rank and drops holds —
evaluateBook returns REJECT, not BUY: the multiplier-below-4 knockout
fires before the override is ever consulted. -/
theorem C1_counterexample :
    (evaluateBook c1raw (808 / 7) 0).multiplier = some 2 ∧
    (evaluateBook c1raw (808 / 7) 0).salesRank = some 500000 ∧
    (evaluateBook c1raw (808 / 7) 0).salesRankDrops90 = 12 ∧
    (evaluateBook c1raw (808 / 7) 0).amazonPrice = some (1616 / 7) ∧
    calculateFBMProfit (808 / 7) (1616 / 7) = 75 ∧
    DECISION.BUY.HIGH_PROFIT_MIN_FBM ≤ calculateFBMProfit (808 / 7) (1616 / 7) ∧
    (500000 : ℚ) < DECISION.BUY.HIGH_PROFIT_MAX_RANK ∧
    DECISION.BUY.HIGH_PROFIT_MIN_DROPS ≤
      (evaluateBook c1raw (808 / 7) 0).salesRankDrops90 ∧
    (evaluateBook c1raw (808 / 7) 0).decision = Decision.REJECT := by
  norm_num [evaluateBook, evalWithPrice, mkResult, c1raw, getSalesRankMetrics, getAmazonPrices,
    analyzeAmazonPresence, determineSellPrice, getLastPrice, csvGet,
    getWeightInPounds, calculateFBAProfit, calculateFBMProfit, jsTruthyQ,
    jsOrQ, List.get?, DECISION.BUY.HIGH_PROFIT_MIN_FBM,
    DECISION.BUY.HIGH_PROFIT_MAX_RANK, DECISION.BUY.HIGH_PROFIT_MIN_DROPS,
    DECISION.KNOCKOUT.MAX_SALES_RANK, DECISION.REVIEW.MULTIPLIER,
    FEES.REFERRAL_FEE_PERCENT, FEES.CLOSING_FEE, FEES.FBA_FULFILLMENT_FEE,
    FEES.FBM_SHIPPING_COST]

/-- Concrete snapshot for the amended C1: same rank and drops, but the
sell price 40400/3 cents = 404/3 dollars is four times the buy price
101/3 dollars, again giving merchant profit exactly $75. -/
def c1amRaw : KeepaProductRaw :=
  { stats := some
      { avg := some [0, 0, 0, 500000, 0, 0, 0, 0, 0, 0, 40400 / 3]
        salesRankDrops90 := some 12 } }

/-- C1 amended: with the multiplier at the review threshold (4, below
the 6 required by the normal BUY tier) and merchant profit $75, rank
500,000, drops 12, evaluateBook returns BUY via the high-profit
override — the override bypasses only the BUY-tier multiplier
requirement, not the review-multiplier knockout. -/
theorem C1_amended_theorem :
    (evaluateBook c1amRaw (101 / 3) 0).multiplier = some 4 ∧
    (4 : ℚ) < DECISION.BUY.MULTIPLIER ∧
    (evaluateBook c1amRaw (101 / 3) 0).salesRank = some 500000 ∧
    (evaluateBook c1amRaw (101 / 3) 0).salesRankDrops90 = 12 ∧
    (evaluateBook c1amRaw (101 / 3) 0).fbmProfit = some 75 ∧
    (evaluateBook c1amRaw (101 / 3) 0).decision = Decision.BUY := by
  norm_num [evaluateBook, evalWithPrice, mkResult, c1amRaw, getSalesRankMetrics, getAmazonPrices,
    analyzeAmazonPresence, determineSellPrice, getLastPrice, csvGet,
    getWeightInPounds, calculateFBAProfit, calculateFBMProfit, jsTruthyQ,
    jsOrQ, List.get?, DECISION.BUY.MULTIPLIER, DECISION.BUY.MAX_SALES_RANK,
    DECISION.BUY.MAX_SALES_RANK_CHEAP, DECISION.BUY.CHEAP_PRICE_THRESHOLD,
    DECISION.BUY.MIN_DROPS_90, DECISION.BUY.HIGH_PROFIT_MIN_FBM,
    DECISION.BUY.HIGH_PROFIT_MAX_RANK, DECISION.BUY.HIGH_PROFIT_MIN_DROPS,
    DECISION.KNOCKOUT.MAX_SALES_RANK, DECISION.REVIEW.MULTIPLIER,
    FEES.REFERRAL_FEE_PERCENT, FEES.CLOSING_FEE, FEES.FBA_FULFILLMENT_FEE,
    FEES.FBM_SHIPPING_COST]

/-! ### Presence analyzer invariants (shared lemmas) -/

/-- Every element of the list belongs to both components of a zip. -/
theorem mem_of_mem_getLast? {α : Type} {l : List α} {a : α}
    (h : l.getLast? = some a) : a ∈ l := by
  obtain ⟨hne, heq⟩ := List.mem_getLast?_eq_getLast (l := l) (x := a)
    (Option.mem_def.mpr h)
  rw [heq]
  exact List.getLast_mem hne

/-- The main walk accumulates nonnegative totals, with the stockout
part never exceeding the total. -/
theorem presencePairs_bounds (cutoff now : ℚ) (bb : Option (List (ℚ × ℚ)))
    (l : List ((ℚ × ℚ) × (ℚ × ℚ))) :
    0 ≤ (presencePairs cutoff now bb l).1 ∧
    0 ≤ (presencePairs cutoff now bb l).2.1 ∧
    (presencePairs cutoff now bb l).2.1 ≤ (presencePairs cutoff now bb l).1 := by
  induction l with
  | nil => simp [presencePairs]
  | cons hd tl ih =>
    obtain ⟨p, q⟩ := hd
    obtain ⟨ih1, ih2, ih3⟩ := ih
    simp only [presencePairs]
    split_ifs with h1 h2 h3
    · exact ⟨ih1, ih2, ih3⟩
    · exact ⟨ih1, ih2, ih3⟩
    · refine ⟨by linarith, by linarith, by linarith⟩
    · refine ⟨by linarith, by linarith, by linarith⟩

/-- The final open period accumulates nonnegative totals, with the
stockout part never exceeding the total. -/
theorem lastPeriodStats_bounds (cutoff now : ℚ) (bb : Option (List (ℚ × ℚ)))
    (pairs : List (ℚ × ℚ)) :
    0 ≤ (lastPeriodStats cutoff now bb pairs).1 ∧
    0 ≤ (lastPeriodStats cutoff now bb pairs).2.1 ∧
    (lastPeriodStats cutoff now bb pairs).2.1 ≤
      (lastPeriodStats cutoff now bb pairs).1 := by
  unfold lastPeriodStats
  cases h : pairs.getLast? with
  | none => simp
  | some p =>
    dsimp only
    split_ifs with h1 h2 h3 <;> refine ⟨?_, ?_, ?_⟩ <;> dsimp only <;> linarith

/-- Combined totals over the window are nonnegative, with the stockout
part never exceeding the total. -/
theorem presenceStats_bounds (pairs : List (ℚ × ℚ))
    (bb : Option (List (ℚ × ℚ))) (now : ℚ) :
    0 ≤ (presenceStats pairs bb now).1 ∧
    0 ≤ (presenceStats pairs bb now).2.1 ∧
    (presenceStats pairs bb now).2.1 ≤ (presenceStats pairs bb now).1 := by
  unfold presenceStats
  have h1 := presencePairs_bounds (now - 90 * 24 * 60 * 60 * 1000) now bb
    (pairs.zip pairs.tail)
  have h2 := lastPeriodStats_bounds (now - 90 * 24 * 60 * 60 * 1000) now bb pairs
  exact ⟨by simp; linarith [h1.1, h2.1], by simp; linarith [h1.2.1, h2.2.1],
    by simp; linarith [h1.2.2, h2.2.2, h1.1, h2.1]⟩

/-- The stockout-percentage field of the analysis is the rounded ratio
when data was observed, else null. -/
theorem realisticStep_pct (pct : Option ℤ) (flag : Option AmazonFlag)
    (bbs : List ℚ) (ntp : Option (List (ℚ × ℚ))) :
    (realisticStep pct flag bbs ntp).stockoutPercent = pct := by
  unfold realisticStep
  split_ifs with h1 h2
  · rfl
  · cases ntp with
    | none => rfl
    | some l =>
      dsimp only
      cases l.getLast? with
      | none => rfl
      | some p =>
        dsimp only
        split_ifs <;> rfl
  · rfl

/-- Projection of analyzeAmazonPresence onto its stockout
percentage. -/
theorem analyze_pct (raw : KeepaProductRaw) (now : ℚ) :
    (analyzeAmazonPresence raw now).stockoutPercent =
      match csvGet raw.csv 0 with
      | none => none
      | some pairs =>
        if pairs.isEmpty then none
        else stockoutPercentOf (presenceStats pairs (csvGet raw.csv 18) now).1
          (presenceStats pairs (csvGet raw.csv 18) now).2.1 := by
  unfold analyzeAmazonPresence
  cases csvGet raw.csv 0 with
  | none => rfl
  | some pairs =>
    by_cases h : pairs.isEmpty
    · simp [h]
    · simp [h, realisticStep_pct]

/-- Empty history yields zero totals. -/
theorem presenceStats_nil (bb : Option (List (ℚ × ℚ))) (now : ℚ) :
    presenceStats [] bb now = (0, 0, []) := by
  simp [presenceStats, presencePairs, lastPeriodStats]

/-- Rounded ratios of observed durations stay within [0, 100]. -/
theorem jsRound_bounds (x : ℚ) (h0 : 0 ≤ x) (h1 : x ≤ 100) :
    0 ≤ jsRound x ∧ jsRound x ≤ 100 := by
  constructor
  · exact Int.le_floor.mpr (by push_cast; linarith)
  · have h2 : jsRound x ≤ ⌊(100 : ℚ) + 1 / 2⌋ :=
      Int.floor_le_floor (by linarith)
    have h3 : ⌊(100 : ℚ) + 1 / 2⌋ = 100 := by norm_num
    rw [h3] at h2
    exact h2

/-- C3: for a chronologically ordered first-party series, the stockout
percentage is an integer in [0, 100] whenever the trailing window has
positive observed duration, and null whenever the observed duration is
zero. -/
theorem C3_stockout_bounds (raw : KeepaProductRaw) (now : ℚ)
    (hchron : List.Chain' (fun p q : ℚ × ℚ => p.1 ≤ q.1)
      ((csvGet raw.csv 0).getD [])) :
    (0 < (presenceStats ((csvGet raw.csv 0).getD [])
        (csvGet raw.csv 18) now).1 →
      ∃ p : ℤ, (analyzeAmazonPresence raw now).stockoutPercent = some p ∧
        0 ≤ p ∧ p ≤ 100) ∧
    ((presenceStats ((csvGet raw.csv 0).getD [])
        (csvGet raw.csv 18) now).1 = 0 →
      (analyzeAmazonPresence raw now).stockoutPercent = none) := by
  have hpct := analyze_pct raw now
  cases hc : csvGet raw.csv 0 with
  | none =>
    rw [hc] at hpct
    constructor
    · intro htot
      rw [Option.getD_none, presenceStats_nil] at htot
      norm_num at htot
    · intro _
      exact hpct
  | some pairs =>
    rw [hc] at hpct
    constructor
    · intro htot
      rw [Option.getD_some] at htot
      by_cases hemp : pairs.isEmpty
      · rw [List.isEmpty_iff.mp hemp, presenceStats_nil] at htot
        norm_num at htot
      · simp only [hemp, if_false, Bool.false_eq_true] at hpct
        have hb := presenceStats_bounds pairs (csvGet raw.csv 18) now
        have hx0 : 0 ≤ (presenceStats pairs (csvGet raw.csv 18) now).2.1 /
            (presenceStats pairs (csvGet raw.csv 18) now).1 * 100 := by
          have := div_nonneg hb.2.1 (le_of_lt htot)
          linarith
        have hx1 : (presenceStats pairs (csvGet raw.csv 18) now).2.1 /
            (presenceStats pairs (csvGet raw.csv 18) now).1 * 100 ≤ 100 := by
          have := (div_le_one htot).mpr hb.2.2
          linarith
        refine ⟨jsRound ((presenceStats pairs (csvGet raw.csv 18) now).2.1 /
          (presenceStats pairs (csvGet raw.csv 18) now).1 * 100), ?_, ?_, ?_⟩
        · rw [hpct]
          simp [stockoutPercentOf, htot]
        · exact (jsRound_bounds _ hx0 hx1).1
        · exact (jsRound_bounds _ hx0 hx1).2
    · intro htot
      rw [Option.getD_some] at htot
      by_cases hemp : pairs.isEmpty
      · simp only [hemp, if_true] at hpct
        exact hpct
      · simp only [hemp, if_false, Bool.false_eq_true] at hpct
        rw [hpct]
        simp [stockoutPercentOf, htot]

/-- Concrete first-party history for the C3 witness: a one-minute
stockout interval followed by an in-stock final interval inside the
window. -/
def c3raw : KeepaProductRaw :=
  { csv := some [some [(0, -1), (60, 500)]] }

/-- C3 witness at a concrete snapshot and evaluation time. -/
theorem C3_witness :
    ∃ p : ℤ, (analyzeAmazonPresence c3raw
        (KEEPA_BASE_TIME + 7776000000)).stockoutPercent = some p ∧
      0 ≤ p ∧ p ≤ 100 :=
  (C3_stockout_bounds c3raw (KEEPA_BASE_TIME + 7776000000)
    (by norm_num [c3raw, csvGet, List.get?])).1
    (by norm_num [c3raw, csvGet, List.get?, presenceStats, presencePairs,
      lastPeriodStats, KEEPA_BASE_TIME, max_def, min_def, collectBB])

/-- If every sentinel sample pair's period, clipped to [cutoff, now],
is empty, the main walk records no stockout time and no buy-box
samples. -/
theorem presencePairs_no_window_stockout (cutoff now : ℚ)
    (bb : Option (List (ℚ × ℚ))) (l : List ((ℚ × ℚ) × (ℚ × ℚ)))
    (h : ∀ pq ∈ l, pq.1.2 = -1 →
      min (KEEPA_BASE_TIME + pq.2.1 * 60 * 1000) now ≤
        max (KEEPA_BASE_TIME + pq.1.1 * 60 * 1000) cutoff) :
    (presencePairs cutoff now bb l).2.1 = 0 ∧
    (presencePairs cutoff now bb l).2.2 = [] := by
  induction l with
  | nil => simp [presencePairs]
  | cons hd tl ih =>
    obtain ⟨p, q⟩ := hd
    have ihh := ih (fun x hx => h x (List.mem_cons_of_mem _ hx))
    simp only [presencePairs]
    split_ifs with h1 h2 h3
    · exact ihh
    · exact ihh
    · exfalso
      have hm := h (p, q) (List.mem_cons_self _ _) h3
      exact h2 (div_nonpos_iff.mpr (Or.inr ⟨by linarith, by norm_num⟩))
    · exact ihh

/-- If a sentinel last sample can only be timestamped at or after now,
the final open period records no stockout time and no buy-box
samples. -/
theorem lastPeriodStats_no_window_stockout (cutoff now : ℚ)
    (bb : Option (List (ℚ × ℚ))) (pairs : List (ℚ × ℚ))
    (h : ∀ p, pairs.getLast? = some p → p.2 = -1 →
      now ≤ KEEPA_BASE_TIME + p.1 * 60 * 1000) :
    (lastPeriodStats cutoff now bb pairs).2.1 = 0 ∧
    (lastPeriodStats cutoff now bb pairs).2.2 = [] := by
  unfold lastPeriodStats
  cases hg : pairs.getLast? with
  | none => simp
  | some p =>
    dsimp only
    split_ifs with h1 h2 h3
    · exact absurd h1 (not_lt.mpr (h p hg h3))
    · simp
    · simp
    · simp

/-- If every sentinel sample's observed period, clipped to the
trailing 90-day window, is empty, the combined totals record no
stockout time and no buy-box samples. -/
theorem presenceStats_no_window_stockout (pairs : List (ℚ × ℚ))
    (bb : Option (List (ℚ × ℚ))) (now : ℚ)
    (hno : ∀ pq ∈ pairs.zip pairs.tail, pq.1.2 = -1 →
      min (KEEPA_BASE_TIME + pq.2.1 * 60 * 1000) now ≤
        max (KEEPA_BASE_TIME + pq.1.1 * 60 * 1000)
          (now - 90 * 24 * 60 * 60 * 1000))
    (hlast : ∀ p, pairs.getLast? = some p → p.2 = -1 →
      now ≤ KEEPA_BASE_TIME + p.1 * 60 * 1000) :
    (presenceStats pairs bb now).2.1 = 0 ∧
    (presenceStats pairs bb now).2.2 = [] := by
  have h1 := presencePairs_no_window_stockout
    (now - 90 * 24 * 60 * 60 * 1000) now bb (pairs.zip pairs.tail) hno
  have h2 := lastPeriodStats_no_window_stockout
    (now - 90 * 24 * 60 * 60 * 1000) now bb pairs hlast
  unfold presenceStats
  dsimp only
  rw [h1.1, h2.1, h1.2, h2.2]
  simp

/-- C8: if the first-party series never reports the out-of-stock
sentinel inside the trailing 90-day window — a consecutive sentinel
sample's period, clipped to the window, is empty, and a sentinel last
sample could only start at or after now — and the window has positive
observed duration, the stockout percentage is 0 and, there being no
buy-box stockout samples, the realistic price is the current
third-party price with the flag forced red. -/
theorem C8_no_sentinel (raw : KeepaProductRaw) (now : ℚ)
    (pairs l3 : List (ℚ × ℚ)) (t v : ℚ)
    (hp : csvGet raw.csv 0 = some pairs) (hne : pairs ≠ [])
    (hno : ∀ pq ∈ pairs.zip pairs.tail, pq.1.2 = -1 →
      min (KEEPA_BASE_TIME + pq.2.1 * 60 * 1000) now ≤
        max (KEEPA_BASE_TIME + pq.1.1 * 60 * 1000)
          (now - 90 * 24 * 60 * 60 * 1000))
    (hlast : ∀ p, pairs.getLast? = some p → p.2 = -1 →
      now ≤ KEEPA_BASE_TIME + p.1 * 60 * 1000)
    (htot : 0 < (presenceStats pairs (csvGet raw.csv 18) now).1)
    (h3 : csvGet raw.csv 1 = some l3)
    (hl : l3.getLast? = some (t, v)) (hv : 0 < v) :
    (analyzeAmazonPresence raw now).stockoutPercent = some 0 ∧
    (analyzeAmazonPresence raw now).realisticPrice = some (v / 100) ∧
    (analyzeAmazonPresence raw now).amazonFlag = some AmazonFlag.red := by
  have hz := presenceStats_no_window_stockout pairs (csvGet raw.csv 18) now
    hno hlast
  have hpct : stockoutPercentOf (presenceStats pairs (csvGet raw.csv 18) now).1
      (presenceStats pairs (csvGet raw.csv 18) now).2.1 = some 0 := by
    rw [hz.1]
    simp only [stockoutPercentOf, if_pos htot]
    norm_num [jsRound]
  have hemp : pairs.isEmpty = false := by simp [List.isEmpty_iff, hne]
  unfold analyzeAmazonPresence
  rw [hp, h3]
  simp only [hemp, Bool.false_eq_true, if_false]
  rw [hpct, hz.2]
  unfold realisticStep
  rw [if_neg (by simp), if_pos rfl]
  dsimp only
  rw [hl]
  dsimp only
  rw [if_pos hv]
  exact ⟨rfl, rfl, rfl⟩

/-- Concrete snapshot for the C8 witness: a first-party stockout that
ended one minute after the first sample — before the window's cutoff —
in stock ever since, and a current third-party price of 2000 cents. -/
def c8raw : KeepaProductRaw :=
  { csv := some [some [(0, -1), (1, 500)], some [(0, 2000)]] }

/-- C8 witness at a concrete snapshot, evaluated 90 days and two
minutes after the first sample: the pre-window stockout is clipped
away, leaving 0% stockout and the third-party fallback. -/
theorem C8_witness :
    (analyzeAmazonPresence c8raw
      (KEEPA_BASE_TIME + 7776120000)).stockoutPercent = some 0 ∧
    (analyzeAmazonPresence c8raw
      (KEEPA_BASE_TIME + 7776120000)).realisticPrice = some (2000 / 100) ∧
    (analyzeAmazonPresence c8raw
      (KEEPA_BASE_TIME + 7776120000)).amazonFlag = some AmazonFlag.red :=
  C8_no_sentinel c8raw (KEEPA_BASE_TIME + 7776120000)
    [(0, -1), (1, 500)] [(0, 2000)] 0 2000
    (by norm_num [c8raw, csvGet, List.get?])
    (by simp)
    (by
      intro pq hpq _hs
      have hpq' : pq ∈ [(((0 : ℚ), (-1 : ℚ)), ((1 : ℚ), (500 : ℚ)))] := hpq
      obtain rfl := List.mem_singleton.mp hpq'
      norm_num [KEEPA_BASE_TIME, min_def, max_def])
    (by
      intro p hgl hs
      have hgl' : (some ((1 : ℚ), (500 : ℚ)) : Option (ℚ × ℚ)) = some p := hgl
      obtain rfl := (Option.some.inj hgl').symm
      norm_num at hs)
    (by norm_num [presenceStats, presencePairs, lastPeriodStats, csvGet,
      c8raw, KEEPA_BASE_TIME, max_def, min_def, List.get?, collectBB])
    (by norm_num [c8raw, csvGet, List.get?])
    rfl
    (by norm_num)

/-- Concrete one-sample first-party history for C9: a single
(time, value) pair, in stock, observed one minute before now. -/
def c9raw : KeepaProductRaw := { csv := some [some [(0, 500)]] }

/-- C9 counterexample: with exactly one (time, value) sample — fewer
than two samples — analyzeAmazonPresence does not return all-null: the
guard tests the flat array length against 2, i.e. only rejects a
channel with no complete sample, so one sample already yields a
non-null stockout percentage and flag. -/
theorem C9_counterexample :
    ((csvGet c9raw.csv 0).getD []).length = 1 ∧
    (analyzeAmazonPresence c9raw
      (KEEPA_BASE_TIME + 60000)).stockoutPercent = some 0 ∧
    (analyzeAmazonPresence c9raw
      (KEEPA_BASE_TIME + 60000)).amazonFlag = some AmazonFlag.red ∧
    (analyzeAmazonPresence c9raw
      (KEEPA_BASE_TIME + 60000)).realisticPrice = none := by
  norm_num [analyzeAmazonPresence, c9raw, csvGet, presenceStats,
    presencePairs, lastPeriodStats, stockoutPercentOf, realisticStep, flagOf,
    jsRound, KEEPA_BASE_TIME, max_def, min_def, List.get?]

/-- If the main walk observed no duration at all, it also recorded no
stockout time and no buy-box samples. -/
theorem presencePairs_zero (cutoff now : ℚ) (bb : Option (List (ℚ × ℚ)))
    (l : List ((ℚ × ℚ) × (ℚ × ℚ)))
    (h : (presencePairs cutoff now bb l).1 = 0) :
    (presencePairs cutoff now bb l).2.1 = 0 ∧
    (presencePairs cutoff now bb l).2.2 = [] := by
  induction l with
  | nil => simp [presencePairs]
  | cons hd tl ih =>
    obtain ⟨p, q⟩ := hd
    have hb := presencePairs_bounds cutoff now bb tl
    simp only [presencePairs] at h ⊢
    split_ifs at h ⊢ with h1 h2 h3
    · exact ih h
    · exact ih h
    · exfalso
      dsimp only at h
      linarith [hb.1]
    · exfalso
      dsimp only at h
      linarith [hb.1]

/-- If the final open period observed no duration, it also recorded no
stockout time and no buy-box samples. -/
theorem lastPeriodStats_zero (cutoff now : ℚ) (bb : Option (List (ℚ × ℚ)))
    (pairs : List (ℚ × ℚ))
    (h : (lastPeriodStats cutoff now bb pairs).1 = 0) :
    (lastPeriodStats cutoff now bb pairs).2.1 = 0 ∧
    (lastPeriodStats cutoff now bb pairs).2.2 = [] := by
  unfold lastPeriodStats at h ⊢
  cases hg : pairs.getLast? with
  | none => simp
  | some p =>
    rw [hg] at h
    dsimp only at h ⊢
    split_ifs at h ⊢ with h1 h2 h3
    · exfalso
      dsimp only at h
      linarith
    · simp
    · simp
    · simp

/-- If the window observed no duration at all, there is no stockout
time and there are no buy-box samples. -/
theorem presenceStats_zero (pairs : List (ℚ × ℚ))
    (bb : Option (List (ℚ × ℚ))) (now : ℚ)
    (h : (presenceStats pairs bb now).1 = 0) :
    (presenceStats pairs bb now).2.1 = 0 ∧
    (presenceStats pairs bb now).2.2 = [] := by
  have hb1 := presencePairs_bounds (now - 90 * 24 * 60 * 60 * 1000) now bb
    (pairs.zip pairs.tail)
  have hb2 := lastPeriodStats_bounds (now - 90 * 24 * 60 * 60 * 1000) now bb
    pairs
  unfold presenceStats at h ⊢
  dsimp only at h ⊢
  have hm : (presencePairs (now - 90 * 24 * 60 * 60 * 1000) now bb
      (pairs.zip pairs.tail)).1 = 0 := by linarith [hb1.1, hb2.1]
  have hlz : (lastPeriodStats (now - 90 * 24 * 60 * 60 * 1000) now bb
      pairs).1 = 0 := by linarith [hb1.1, hb2.1]
  have z1 := presencePairs_zero (now - 90 * 24 * 60 * 60 * 1000) now bb
    (pairs.zip pairs.tail) hm
  have z2 := lastPeriodStats_zero (now - 90 * 24 * 60 * 60 * 1000) now bb
    pairs hlz
  rw [z1.1, z2.1, z1.2, z2.2]
  simp

/-- C9 amended: analyzeAmazonPresence returns all-null exactly for an
empty first-party channel (no complete sample); and whenever the
stockout percentage is null, the realistic price and flag are null too,
so missing data is never treated as a 0% stockout. -/
theorem C9_amended_theorem (raw : KeepaProductRaw) (now : ℚ) :
    ((csvGet raw.csv 0).getD [] = [] →
      analyzeAmazonPresence raw now = ⟨none, none, none⟩) ∧
    ((analyzeAmazonPresence raw now).stockoutPercent = none →
      (analyzeAmazonPresence raw now).realisticPrice = none ∧
      (analyzeAmazonPresence raw now).amazonFlag = none) := by
  constructor
  · intro h
    unfold analyzeAmazonPresence
    cases hc : csvGet raw.csv 0 with
    | none => rfl
    | some pairs =>
      rw [hc, Option.getD_some] at h
      rw [h]
      simp
  · intro h
    have hpct := analyze_pct raw now
    cases hc : csvGet raw.csv 0 with
    | none =>
      unfold analyzeAmazonPresence
      rw [hc]
      exact ⟨rfl, rfl⟩
    | some pairs =>
      rw [hc] at hpct
      by_cases hemp : pairs.isEmpty
      · unfold analyzeAmazonPresence
        rw [hc]
        simp [hemp]
      · simp only [hemp, Bool.false_eq_true, if_false] at hpct
        rw [h] at hpct
        have htot0 : (presenceStats pairs (csvGet raw.csv 18) now).1 = 0 := by
          by_contra hne0
          have hb := presenceStats_bounds pairs (csvGet raw.csv 18) now
          have hlt : 0 < (presenceStats pairs (csvGet raw.csv 18) now).1 :=
            lt_of_le_of_ne hb.1 (Ne.symm hne0)
          rw [stockoutPercentOf, if_pos hlt] at hpct
          simp at hpct
        have hz := presenceStats_zero pairs (csvGet raw.csv 18) now htot0
        have hpn : stockoutPercentOf
            (presenceStats pairs (csvGet raw.csv 18) now).1
            (presenceStats pairs (csvGet raw.csv 18) now).2.1 = none := by
          rw [htot0]
          simp [stockoutPercentOf]
        unfold analyzeAmazonPresence
        rw [hc]
        simp only [hemp, Bool.false_eq_true, if_false]
        rw [hz.2, hpn]
        unfold realisticStep
        rw [if_neg (by simp), if_neg (by simp)]
        exact ⟨rfl, rfl⟩

/-- Concrete empty snapshot for the C9 amended witness. -/
def c9empty : KeepaProductRaw := {}

/-- C9 amended witness: the empty channel gives the all-null
analysis. -/
theorem C9_amended_witness :
    analyzeAmazonPresence c9empty 0 = ⟨none, none, none⟩ :=
  (C9_amended_theorem c9empty 0).1 rfl

/-! ### evaluateBook structure lemmas (shared by C2, C6, C7) -/

/-- A string with a nonempty left part is nonempty. -/
theorem str_ne_empty_of_left (s t : String) (h : s ≠ "") : s ++ t ≠ "" := by
  intro he
  apply h
  have hl : (s ++ t).length = 0 := by rw [he]; rfl
  rw [String.length_append] at hl
  have h0 : s.length = 0 := by omega
  cases s with
  | mk d =>
    simp [String.length] at h0
    simp [h0]

set_option maxHeartbeats 1000000 in
/-- The salesRank field of every evaluation equals the extracted
average sales rank. -/
theorem eval_salesRank (raw : KeepaProductRaw) (b now : ℚ) :
    (evaluateBook raw b now).salesRank =
      (getSalesRankMetrics raw).avgSalesRank := by
  unfold evaluateBook evalWithPrice
  dsimp only
  iterate 14 (all_goals try (first | rfl | split))

set_option maxHeartbeats 1000000 in
/-- The salesRankDrops90 field of every evaluation equals the extracted
drop count. -/
theorem eval_drops (raw : KeepaProductRaw) (b now : ℚ) :
    (evaluateBook raw b now).salesRankDrops90 =
      (getSalesRankMetrics raw).salesRankDrops90 := by
  unfold evaluateBook evalWithPrice
  dsimp only
  iterate 14 (all_goals try (first | rfl | split))

/-- Projection of mkResult onto its decision. -/
theorem mkResult_decision (raw : KeepaProductRaw) (metrics : SalesRankMetrics)
    (d : Decision) (reason : String) (flag : Option AmazonFlag)
    (ap fba fbm mult : Option ℚ) :
    (mkResult raw metrics d reason flag ap fba fbm mult).decision = d := rfl

/-- Projection of mkResult onto its reason. -/
theorem mkResult_reason (raw : KeepaProductRaw) (metrics : SalesRankMetrics)
    (d : Decision) (reason : String) (flag : Option AmazonFlag)
    (ap fba fbm mult : Option ℚ) :
    (mkResult raw metrics d reason flag ap fba fbm mult).reason = reason := rfl

/-- Projection of mkResult onto its multiplier. -/
theorem mkResult_multiplier (raw : KeepaProductRaw)
    (metrics : SalesRankMetrics) (d : Decision) (reason : String)
    (flag : Option AmazonFlag) (ap fba fbm mult : Option ℚ) :
    (mkResult raw metrics d reason flag ap fba fbm mult).multiplier =
      mult := rfl

/-- Projection of mkResult onto its amazonPrice. -/
theorem mkResult_amazonPrice (raw : KeepaProductRaw)
    (metrics : SalesRankMetrics) (d : Decision) (reason : String)
    (flag : Option AmazonFlag) (ap fba fbm mult : Option ℚ) :
    (mkResult raw metrics d reason flag ap fba fbm mult).amazonPrice =
      ap := rfl

/-- C7: for the three expected missing-data situations — unknown
average sales rank, no usable (truthy) sell price, zero 90-day drops —
evaluateBook returns a REJECT result with a non-empty reason, never an
error. -/
theorem C7_missing_data (raw : KeepaProductRaw) (b now : ℚ)
    (h : (getSalesRankMetrics raw).avgSalesRank = none ∨
      jsTruthyQ (determineSellPrice (getAmazonPrices raw)
        (analyzeAmazonPresence raw now)) = false ∨
      (getSalesRankMetrics raw).salesRankDrops90 = 0) :
    (evaluateBook raw b now).decision = Decision.REJECT ∧
    (evaluateBook raw b now).reason ≠ "" := by
  unfold evaluateBook evalWithPrice
  dsimp only
  cases hR : (getSalesRankMetrics raw).avgSalesRank with
  | none =>
    dsimp only
    exact ⟨mkResult_decision .., by rw [mkResult_reason]; decide⟩
  | some rank =>
    dsimp only
    by_cases h1 : rank = 0
    · rw [if_pos h1]
      exact ⟨mkResult_decision .., by rw [mkResult_reason]; decide⟩
    rw [if_neg h1]
    by_cases h2 : rank > DECISION.KNOCKOUT.MAX_SALES_RANK
    · rw [if_pos h2]
      exact ⟨mkResult_decision .., by
        rw [mkResult_reason]
        exact str_ne_empty_of_left _ _
          (str_ne_empty_of_left "Rank " _ (by decide))⟩
    rw [if_neg h2]
    rcases h with h | h | h
    · rw [hR] at h
      exact absurd h (by simp)
    · cases hD : determineSellPrice (getAmazonPrices raw)
        (analyzeAmazonPresence raw now) with
      | none =>
        exact ⟨mkResult_decision .., by rw [mkResult_reason]; decide⟩
      | some ap =>
        rw [hD] at h
        have hap : ap = 0 := by
          by_contra hne
          simp [jsTruthyQ, hne] at h
        dsimp only
        rw [if_pos hap]
        exact ⟨mkResult_decision .., by rw [mkResult_reason]; decide⟩
    · cases hD : determineSellPrice (getAmazonPrices raw)
        (analyzeAmazonPresence raw now) with
      | none =>
        exact ⟨mkResult_decision .., by rw [mkResult_reason]; decide⟩
      | some ap =>
        dsimp only
        by_cases hap : ap = 0
        · rw [if_pos hap]
          exact ⟨mkResult_decision .., by rw [mkResult_reason]; decide⟩
        rw [if_neg hap]
        by_cases hmlt : ap / b < DECISION.REVIEW.MULTIPLIER
        · rw [if_pos hmlt]
          exact ⟨mkResult_decision .., by
            rw [mkResult_reason]
            exact str_ne_empty_of_left _ _
              (str_ne_empty_of_left "Multiplier " _ (by decide))⟩
        rw [if_neg hmlt]
        rw [if_pos h]
        exact ⟨mkResult_decision .., by rw [mkResult_reason]; decide⟩


/-- evaluateBook with unknown rank. -/
theorem eval_eq_rankNone (raw : KeepaProductRaw) (b now : ℚ)
    (hR : (getSalesRankMetrics raw).avgSalesRank = none) :
    evaluateBook raw b now = mkResult raw (getSalesRankMetrics raw)
      Decision.REJECT "Unknown sales rank" none none none none none := by
  unfold evaluateBook
  try dsimp only
  rw [hR]

/-- evaluateBook with a zero (falsy) rank. -/
theorem eval_eq_rankZero (raw : KeepaProductRaw) (b now rank : ℚ)
    (hR : (getSalesRankMetrics raw).avgSalesRank = some rank)
    (h1 : rank = 0) :
    evaluateBook raw b now = mkResult raw (getSalesRankMetrics raw)
      Decision.REJECT "Unknown sales rank" none none none none none := by
  unfold evaluateBook
  try dsimp only
  rw [hR]
  try dsimp only
  rw [if_pos h1]

/-- evaluateBook with the rank above the knockout cap. -/
theorem eval_eq_rankHigh (raw : KeepaProductRaw) (b now rank : ℚ)
    (hR : (getSalesRankMetrics raw).avgSalesRank = some rank)
    (h1 : ¬ rank = 0) (h2 : rank > DECISION.KNOCKOUT.MAX_SALES_RANK) :
    evaluateBook raw b now = mkResult raw (getSalesRankMetrics raw)
      Decision.REJECT ("Rank " ++ ratStr rank ++ " > 3M") none none none
      none none := by
  unfold evaluateBook
  try dsimp only
  rw [hR]
  try dsimp only
  rw [if_neg h1, if_pos h2]

/-- evaluateBook without a usable sell price. -/
theorem eval_eq_priceNone (raw : KeepaProductRaw) (b now rank : ℚ)
    (hR : (getSalesRankMetrics raw).avgSalesRank = some rank)
    (h1 : ¬ rank = 0) (h2 : ¬ rank > DECISION.KNOCKOUT.MAX_SALES_RANK)
    (hD : determineSellPrice (getAmazonPrices raw)
      (analyzeAmazonPresence raw now) = none) :
    evaluateBook raw b now = mkResult raw (getSalesRankMetrics raw)
      Decision.REJECT "No Amazon price data"
      (analyzeAmazonPresence raw now).amazonFlag none none none none := by
  unfold evaluateBook
  try dsimp only
  rw [hR]
  try dsimp only
  rw [if_neg h1, if_neg h2]
  try dsimp only
  rw [hD]

/-- evaluateBook with a zero (falsy) sell price. -/
theorem eval_eq_priceZero (raw : KeepaProductRaw) (b now rank ap : ℚ)
    (hR : (getSalesRankMetrics raw).avgSalesRank = some rank)
    (h1 : ¬ rank = 0) (h2 : ¬ rank > DECISION.KNOCKOUT.MAX_SALES_RANK)
    (hD : determineSellPrice (getAmazonPrices raw)
      (analyzeAmazonPresence raw now) = some ap) (hap : ap = 0) :
    evaluateBook raw b now = mkResult raw (getSalesRankMetrics raw)
      Decision.REJECT "No Amazon price data"
      (analyzeAmazonPresence raw now).amazonFlag none none none none := by
  unfold evaluateBook
  try dsimp only
  rw [hR]
  try dsimp only
  rw [if_neg h1, if_neg h2]
  try dsimp only
  rw [hD]
  try dsimp only
  rw [if_pos hap]

/-- evaluateBook once a nonzero sell price is fixed. -/
theorem eval_eq_main (raw : KeepaProductRaw) (b now rank ap : ℚ)
    (hR : (getSalesRankMetrics raw).avgSalesRank = some rank)
    (h1 : ¬ rank = 0) (h2 : ¬ rank > DECISION.KNOCKOUT.MAX_SALES_RANK)
    (hD : determineSellPrice (getAmazonPrices raw)
      (analyzeAmazonPresence raw now) = some ap) (hap : ¬ ap = 0) :
    evaluateBook raw b now = evalWithPrice raw (getSalesRankMetrics raw)
      rank (analyzeAmazonPresence raw now) b ap := by
  unfold evaluateBook
  try dsimp only
  rw [hR]
  try dsimp only
  rw [if_neg h1, if_neg h2]
  try dsimp only
  rw [hD]
  try dsimp only
  rw [if_neg hap]

/-- The multiplier recorded by the continuation is always the ratio of
sell to buy price. -/
theorem evalWithPrice_multiplier (raw : KeepaProductRaw)
    (metrics : SalesRankMetrics) (rank : ℚ) (analysis : AmazonPresence)
    (b ap : ℚ) :
    (evalWithPrice raw metrics rank analysis b ap).multiplier =
      some (ap / b) := by
  unfold evalWithPrice
  dsimp only
  split_ifs <;> rw [mkResult_multiplier]

/-- Facts forced by a BUY outcome of the continuation: the multiplier
passed the review knockout, the drop count is nonzero and at least the
review minimum, and the rank is below the review cap. -/
theorem evalWithPrice_buy_facts (raw : KeepaProductRaw)
    (metrics : SalesRankMetrics) (rank : ℚ) (analysis : AmazonPresence)
    (b ap : ℚ)
    (hbuy : (evalWithPrice raw metrics rank analysis b ap).decision =
      Decision.BUY) :
    ¬ ap / b < DECISION.REVIEW.MULTIPLIER ∧
    metrics.salesRankDrops90 ≠ 0 ∧
    DECISION.REVIEW.MIN_DROPS_90 ≤ metrics.salesRankDrops90 ∧
    rank < DECISION.REVIEW.MAX_SALES_RANK := by
  unfold evalWithPrice at hbuy
  dsimp only at hbuy
  by_cases hmlt : ap / b < DECISION.REVIEW.MULTIPLIER
  · rw [if_pos hmlt, mkResult_decision] at hbuy
    exact absurd hbuy (by decide)
  rw [if_neg hmlt] at hbuy
  by_cases hd0 : metrics.salesRankDrops90 = 0
  · rw [if_pos hd0, mkResult_decision] at hbuy
    exact absurd hbuy (by decide)
  rw [if_neg hd0] at hbuy
  by_cases ht : ap / b ≥ DECISION.BUY.MULTIPLIER ∧
      rank < (if b < DECISION.BUY.CHEAP_PRICE_THRESHOLD
        then DECISION.BUY.MAX_SALES_RANK_CHEAP
        else DECISION.BUY.MAX_SALES_RANK) ∧
      metrics.salesRankDrops90 ≥ DECISION.BUY.MIN_DROPS_90 ∨
      calculateFBMProfit b ap ≥ DECISION.BUY.HIGH_PROFIT_MIN_FBM ∧
      rank < DECISION.BUY.HIGH_PROFIT_MAX_RANK ∧
      metrics.salesRankDrops90 ≥ DECISION.BUY.HIGH_PROFIT_MIN_DROPS
  · refine ⟨hmlt, hd0, ?_, ?_⟩
    · rcases ht with ⟨_, _, h3⟩ | ⟨_, _, h3⟩
      · revert h3
        norm_num [DECISION.BUY.MIN_DROPS_90, DECISION.REVIEW.MIN_DROPS_90]
        intro h3
        linarith
      · revert h3
        norm_num [DECISION.BUY.HIGH_PROFIT_MIN_DROPS,
          DECISION.REVIEW.MIN_DROPS_90]
        intro h3
        linarith
    · rcases ht with ⟨_, hlt, _⟩ | ⟨_, hlt, _⟩
      · revert hlt
        by_cases hch : b < DECISION.BUY.CHEAP_PRICE_THRESHOLD
        · rw [if_pos hch]
          norm_num [DECISION.BUY.MAX_SALES_RANK_CHEAP,
            DECISION.REVIEW.MAX_SALES_RANK]
          intro hlt
          linarith
        · rw [if_neg hch]
          norm_num [DECISION.BUY.MAX_SALES_RANK,
            DECISION.REVIEW.MAX_SALES_RANK]
          intro hlt
          linarith
      · revert hlt
        norm_num [DECISION.BUY.HIGH_PROFIT_MAX_RANK,
          DECISION.REVIEW.MAX_SALES_RANK]
        intro hlt
        linarith
  · rw [if_neg ht] at hbuy
    by_cases hrev : ap / b ≥ DECISION.REVIEW.MULTIPLIER ∧
        rank < DECISION.REVIEW.MAX_SALES_RANK ∧
        metrics.salesRankDrops90 ≥ DECISION.REVIEW.MIN_DROPS_90
    · rw [if_pos hrev, mkResult_decision] at hbuy
      exact absurd hbuy (by decide)
    · rw [if_neg hrev, mkResult_decision] at hbuy
      exact absurd hbuy (by decide)

/-- The continuation never rejects when the multiplier passed the
review knockout, the drop count is nonzero and meets the review
minimum, and the rank is below the review cap. -/
theorem evalWithPrice_not_reject (raw : KeepaProductRaw)
    (metrics : SalesRankMetrics) (rank : ℚ) (analysis : AmazonPresence)
    (b ap : ℚ)
    (hm4 : ¬ ap / b < DECISION.REVIEW.MULTIPLIER)
    (hd : metrics.salesRankDrops90 ≠ 0)
    (hd2 : DECISION.REVIEW.MIN_DROPS_90 ≤ metrics.salesRankDrops90)
    (hrank : rank < DECISION.REVIEW.MAX_SALES_RANK) :
    (evalWithPrice raw metrics rank analysis b ap).decision ≠
      Decision.REJECT := by
  unfold evalWithPrice
  dsimp only
  rw [if_neg hm4, if_neg hd]
  by_cases ht : ap / b ≥ DECISION.BUY.MULTIPLIER ∧
      rank < (if b < DECISION.BUY.CHEAP_PRICE_THRESHOLD
        then DECISION.BUY.MAX_SALES_RANK_CHEAP
        else DECISION.BUY.MAX_SALES_RANK) ∧
      metrics.salesRankDrops90 ≥ DECISION.BUY.MIN_DROPS_90 ∨
      calculateFBMProfit b ap ≥ DECISION.BUY.HIGH_PROFIT_MIN_FBM ∧
      rank < DECISION.BUY.HIGH_PROFIT_MAX_RANK ∧
      metrics.salesRankDrops90 ≥ DECISION.BUY.HIGH_PROFIT_MIN_DROPS
  · rw [if_pos ht, mkResult_decision]
    decide
  · rw [if_neg ht]
    have hrev : ap / b ≥ DECISION.REVIEW.MULTIPLIER ∧
        rank < DECISION.REVIEW.MAX_SALES_RANK ∧
        metrics.salesRankDrops90 ≥ DECISION.REVIEW.MIN_DROPS_90 :=
      ⟨le_of_not_lt hm4, hrank, hd2⟩
    rw [if_pos hrev, mkResult_decision]
    decide

/-- C2: holding the average sales rank and the 90-day drop count fixed,
a run with a strictly larger multiplier than a BUY run is never
REJECTed. -/
theorem C2_monotonic (raw1 raw2 : KeepaProductRaw)
    (b1 b2 now1 now2 m1 m2 : ℚ)
    (hbuy : (evaluateBook raw1 b1 now1).decision = Decision.BUY)
    (hrank : (evaluateBook raw1 b1 now1).salesRank =
      (evaluateBook raw2 b2 now2).salesRank)
    (hdrops : (evaluateBook raw1 b1 now1).salesRankDrops90 =
      (evaluateBook raw2 b2 now2).salesRankDrops90)
    (hm1 : (evaluateBook raw1 b1 now1).multiplier = some m1)
    (hm2 : (evaluateBook raw2 b2 now2).multiplier = some m2)
    (hlt : m1 < m2) :
    (evaluateBook raw2 b2 now2).decision ≠ Decision.REJECT := by
  rw [eval_salesRank raw1 b1 now1, eval_salesRank raw2 b2 now2] at hrank
  rw [eval_drops raw1 b1 now1, eval_drops raw2 b2 now2] at hdrops
  cases hR1 : (getSalesRankMetrics raw1).avgSalesRank with
  | none =>
    rw [eval_eq_rankNone raw1 b1 now1 hR1, mkResult_multiplier] at hm1
    exact absurd hm1 (by simp)
  | some rank1 =>
    by_cases h11 : rank1 = 0
    · rw [eval_eq_rankZero raw1 b1 now1 rank1 hR1 h11,
        mkResult_multiplier] at hm1
      exact absurd hm1 (by simp)
    by_cases h12 : rank1 > DECISION.KNOCKOUT.MAX_SALES_RANK
    · rw [eval_eq_rankHigh raw1 b1 now1 rank1 hR1 h11 h12,
        mkResult_multiplier] at hm1
      exact absurd hm1 (by simp)
    cases hD1 : determineSellPrice (getAmazonPrices raw1)
        (analyzeAmazonPresence raw1 now1) with
    | none =>
      rw [eval_eq_priceNone raw1 b1 now1 rank1 hR1 h11 h12 hD1,
        mkResult_multiplier] at hm1
      exact absurd hm1 (by simp)
    | some ap1 =>
      by_cases hap1 : ap1 = 0
      · rw [eval_eq_priceZero raw1 b1 now1 rank1 ap1 hR1 h11 h12 hD1 hap1,
          mkResult_multiplier] at hm1
        exact absurd hm1 (by simp)
      have hE1 := eval_eq_main raw1 b1 now1 rank1 ap1 hR1 h11 h12 hD1 hap1
      rw [hE1] at hbuy hm1
      have hf := evalWithPrice_buy_facts raw1 (getSalesRankMetrics raw1)
        rank1 (analyzeAmazonPresence raw1 now1) b1 ap1 hbuy
      have hm1e : ap1 / b1 = m1 :=
        Option.some.inj ((evalWithPrice_multiplier raw1 (getSalesRankMetrics
          raw1) rank1 (analyzeAmazonPresence raw1 now1) b1 ap1).symm.trans hm1)
      cases hR2 : (getSalesRankMetrics raw2).avgSalesRank with
      | none =>
        rw [eval_eq_rankNone raw2 b2 now2 hR2, mkResult_multiplier] at hm2
        exact absurd hm2 (by simp)
      | some rank2 =>
        by_cases h21 : rank2 = 0
        · rw [eval_eq_rankZero raw2 b2 now2 rank2 hR2 h21,
            mkResult_multiplier] at hm2
          exact absurd hm2 (by simp)
        by_cases h22 : rank2 > DECISION.KNOCKOUT.MAX_SALES_RANK
        · rw [eval_eq_rankHigh raw2 b2 now2 rank2 hR2 h21 h22,
            mkResult_multiplier] at hm2
          exact absurd hm2 (by simp)
        cases hD2 : determineSellPrice (getAmazonPrices raw2)
            (analyzeAmazonPresence raw2 now2) with
        | none =>
          rw [eval_eq_priceNone raw2 b2 now2 rank2 hR2 h21 h22 hD2,
            mkResult_multiplier] at hm2
          exact absurd hm2 (by simp)
        | some ap2 =>
          by_cases hap2 : ap2 = 0
          · rw [eval_eq_priceZero raw2 b2 now2 rank2 ap2 hR2 h21 h22 hD2 hap2,
              mkResult_multiplier] at hm2
            exact absurd hm2 (by simp)
          have hE2 := eval_eq_main raw2 b2 now2 rank2 ap2 hR2 h21 h22 hD2 hap2
          rw [hE2] at hm2 ⊢
          have hm2e : ap2 / b2 = m2 :=
            Option.some.inj ((evalWithPrice_multiplier raw2 (getSalesRankMetrics
              raw2) rank2 (analyzeAmazonPresence raw2 now2) b2
              ap2).symm.trans hm2)
          rw [hR1, hR2] at hrank
          have hrk12 : rank1 = rank2 := Option.some.inj hrank
          apply evalWithPrice_not_reject raw2 (getSalesRankMetrics raw2) rank2
            (analyzeAmazonPresence raw2 now2) b2 ap2
          · rw [hm2e]
            have h4 : DECISION.REVIEW.MULTIPLIER ≤ m1 := by
              have := hf.1
              rw [hm1e] at this
              exact le_of_not_lt this
            exact not_lt.mpr (by linarith)
          · rw [← hdrops]
            exact hf.2.1
          · rw [← hdrops]
            exact hf.2.2.1
          · rw [← hrk12]
            exact hf.2.2.2

/-- First snapshot for the C2 witness: sell price $35 at rank 900,000
with 5 drops. -/
def c2raw1 : KeepaProductRaw :=
  { stats := some
      { avg := some [0, 0, 0, 900000, 0, 0, 0, 0, 0, 0, 3500]
        salesRankDrops90 := some 5 } }

/-- Second snapshot for the C2 witness: identical rank and drops but
sell price $40. -/
def c2raw2 : KeepaProductRaw :=
  { stats := some
      { avg := some [0, 0, 0, 900000, 0, 0, 0, 0, 0, 0, 4000]
        salesRankDrops90 := some 5 } }

/-- C2 witness: the first run is a BUY at multiplier 7; the second run,
at equal rank and drops and multiplier 8, is not rejected. -/
theorem C2_witness :
    (evaluateBook c2raw2 5 0).decision ≠ Decision.REJECT :=
  C2_monotonic c2raw1 c2raw2 5 5 0 0 7 8
    (by norm_num [evaluateBook, evalWithPrice, mkResult, c2raw1,
      getSalesRankMetrics, getAmazonPrices, analyzeAmazonPresence,
      determineSellPrice, getLastPrice, csvGet, getWeightInPounds,
      calculateFBAProfit, calculateFBMProfit, jsTruthyQ, jsOrQ, List.get?,
      DECISION.BUY.MULTIPLIER, DECISION.BUY.MAX_SALES_RANK,
      DECISION.BUY.MAX_SALES_RANK_CHEAP, DECISION.BUY.CHEAP_PRICE_THRESHOLD,
      DECISION.BUY.MIN_DROPS_90, DECISION.BUY.HIGH_PROFIT_MIN_FBM,
      DECISION.BUY.HIGH_PROFIT_MAX_RANK, DECISION.BUY.HIGH_PROFIT_MIN_DROPS,
      DECISION.KNOCKOUT.MAX_SALES_RANK, DECISION.REVIEW.MULTIPLIER,
      FEES.REFERRAL_FEE_PERCENT, FEES.CLOSING_FEE, FEES.FBA_FULFILLMENT_FEE,
      FEES.FBM_SHIPPING_COST])
    (by norm_num [eval_salesRank, getSalesRankMetrics, c2raw1, c2raw2,
      List.get?])
    (by norm_num [eval_drops, getSalesRankMetrics, c2raw1, c2raw2,
      List.get?])
    (by norm_num [evaluateBook, evalWithPrice, mkResult, c2raw1,
      getSalesRankMetrics, getAmazonPrices, analyzeAmazonPresence,
      determineSellPrice, getLastPrice, csvGet, getWeightInPounds,
      calculateFBAProfit, calculateFBMProfit, jsTruthyQ, jsOrQ, List.get?,
      DECISION.BUY.MULTIPLIER, DECISION.BUY.MAX_SALES_RANK,
      DECISION.BUY.MAX_SALES_RANK_CHEAP, DECISION.BUY.CHEAP_PRICE_THRESHOLD,
      DECISION.BUY.MIN_DROPS_90, DECISION.BUY.HIGH_PROFIT_MIN_FBM,
      DECISION.BUY.HIGH_PROFIT_MAX_RANK, DECISION.BUY.HIGH_PROFIT_MIN_DROPS,
      DECISION.KNOCKOUT.MAX_SALES_RANK, DECISION.REVIEW.MULTIPLIER,
      FEES.REFERRAL_FEE_PERCENT, FEES.CLOSING_FEE, FEES.FBA_FULFILLMENT_FEE,
      FEES.FBM_SHIPPING_COST])
    (by norm_num [evaluateBook, evalWithPrice, mkResult, c2raw2,
      getSalesRankMetrics, getAmazonPrices, analyzeAmazonPresence,
      determineSellPrice, getLastPrice, csvGet, getWeightInPounds,
      calculateFBAProfit, calculateFBMProfit, jsTruthyQ, jsOrQ, List.get?,
      DECISION.BUY.MULTIPLIER, DECISION.BUY.MAX_SALES_RANK,
      DECISION.BUY.MAX_SALES_RANK_CHEAP, DECISION.BUY.CHEAP_PRICE_THRESHOLD,
      DECISION.BUY.MIN_DROPS_90, DECISION.BUY.HIGH_PROFIT_MIN_FBM,
      DECISION.BUY.HIGH_PROFIT_MAX_RANK, DECISION.BUY.HIGH_PROFIT_MIN_DROPS,
      DECISION.KNOCKOUT.MAX_SALES_RANK, DECISION.REVIEW.MULTIPLIER,
      FEES.REFERRAL_FEE_PERCENT, FEES.CLOSING_FEE, FEES.FBA_FULFILLMENT_FEE,
      FEES.FBM_SHIPPING_COST])
    (by norm_num)

/-- Empty snapshot for the C7 witness: no stats at all, hence no
average sales rank. -/
def c7raw : KeepaProductRaw := {}

/-- C7 witness: with the rank absent the result is a REJECT with a
non-empty reason. -/
theorem C7_witness :
    (evaluateBook c7raw 5 0).decision = Decision.REJECT ∧
    (evaluateBook c7raw 5 0).reason ≠ "" :=
  C7_missing_data c7raw 5 0 (Or.inl rfl)

/-- The amazonPrice recorded by the continuation is always the sell
price it was given. -/
theorem evalWithPrice_amazonPrice (raw : KeepaProductRaw)
    (metrics : SalesRankMetrics) (rank : ℚ) (analysis : AmazonPresence)
    (b ap : ℚ) :
    (evalWithPrice raw metrics rank analysis b ap).amazonPrice =
      some ap := by
  unfold evalWithPrice
  dsimp only
  split_ifs <;> rw [mkResult_amazonPrice]

/-- Concrete snapshot for the C6 counterexample: the presence analysis
yields no realistic price, the 180-day average FBA price is $10 and the
current FBA price is $25; the engine uses the minimum $10, not the
first non-null current price $25. -/
def c6raw : KeepaProductRaw :=
  { csv := some [none, none, none, none, none, none, none, none, none, none,
      some [(0, 2500)]]
    stats := some
      { avg := some [0, 0, 0, 500000, 0, 0, 0, 0, 0, 0, 1000]
        salesRankDrops90 := some 5 } }

/-- C6 counterexample: with no realistic price, a $10 trailing-average
price and a $25 current price on the fba channel, the engine's sell
price is $10 — the minimum of the two chains — not the single first
non-null best-available price $25 by channel priority. -/
theorem C6_counterexample :
    (analyzeAmazonPresence c6raw 0).realisticPrice = none ∧
    (evaluateBook c6raw 1 0).amazonPrice = some 10 ∧
    specBestAvailablePrice (getAmazonPrices c6raw) = some 25 ∧
    (10 : ℚ) ≠ 25 := by
  norm_num [evaluateBook, evalWithPrice, mkResult, c6raw,
    getSalesRankMetrics, getAmazonPrices, analyzeAmazonPresence,
    determineSellPrice, specBestAvailablePrice, getLastPrice, csvGet,
    getWeightInPounds, calculateFBAProfit, calculateFBMProfit, jsTruthyQ,
    jsOrQ, List.get?, DECISION.KNOCKOUT.MAX_SALES_RANK,
    DECISION.REVIEW.MULTIPLIER, DECISION.BUY.MULTIPLIER,
    DECISION.BUY.MAX_SALES_RANK, DECISION.BUY.MAX_SALES_RANK_CHEAP,
    DECISION.BUY.CHEAP_PRICE_THRESHOLD, DECISION.BUY.MIN_DROPS_90,
    DECISION.BUY.HIGH_PROFIT_MIN_FBM, DECISION.BUY.HIGH_PROFIT_MAX_RANK,
    DECISION.BUY.HIGH_PROFIT_MIN_DROPS, DECISION.REVIEW.MAX_SALES_RANK,
    DECISION.REVIEW.MIN_DROPS_90, FEES.REFERRAL_FEE_PERCENT,
    FEES.CLOSING_FEE, FEES.FBA_FULFILLMENT_FEE, FEES.FBM_SHIPPING_COST]

/-- C6 amended: whenever the presence analysis yields no truthy
realistic price and the engine reaches the price step, the sell price
it uses is the minimum of the first non-null 180-day-average price and
the first non-null current price, each chained fba then new then
used. -/
theorem C6_amended_theorem (raw : KeepaProductRaw) (b now rk v : ℚ)
    (hr : (getSalesRankMetrics raw).avgSalesRank = some rk) (h0 : ¬ rk = 0)
    (hK : ¬ rk > DECISION.KNOCKOUT.MAX_SALES_RANK)
    (hreal : jsTruthyQ (analyzeAmazonPresence raw now).realisticPrice = false)
    (hfb : specMinFallback (getAmazonPrices raw) = some v) (hv : ¬ v = 0) :
    (evaluateBook raw b now).amazonPrice = some v := by
  have hdet : determineSellPrice (getAmazonPrices raw)
      (analyzeAmazonPresence raw now) = some v := by
    unfold determineSellPrice
    rw [if_neg (by rw [hreal]; exact Bool.false_ne_true)]
    exact hfb
  rw [eval_eq_main raw b now rk v hr h0 hK hdet hv]
  exact evalWithPrice_amazonPrice raw (getSalesRankMetrics raw) rk
    (analyzeAmazonPresence raw now) b v

/-- Concrete snapshot for the C6 amended witness: only a trailing
average FBA price of $30 is available. -/
def c6wraw : KeepaProductRaw :=
  { stats := some
      { avg := some [0, 0, 0, 500000, 0, 0, 0, 0, 0, 0, 3000]
        salesRankDrops90 := some 5 } }

/-- C6 amended witness at a concrete snapshot. -/
theorem C6_witness : (evaluateBook c6wraw 5 0).amazonPrice = some 30 :=
  C6_amended_theorem c6wraw 5 0 500000 30
    (by norm_num [getSalesRankMetrics, c6wraw, List.get?])
    (by norm_num)
    (by norm_num [DECISION.KNOCKOUT.MAX_SALES_RANK])
    (by norm_num [analyzeAmazonPresence, c6wraw, csvGet, jsTruthyQ])
    (by norm_num [specMinFallback, getAmazonPrices, c6wraw, csvGet,
      getLastPrice, jsOrQ, jsTruthyQ, List.get?])
    (by norm_num)

/-! ### Character and digit-list lemmas for the identifier claims -/

/-- A digit character has a character code between 48 and 57. -/
theorem digit_toNat_bounds (c : Char) (h : isDigitChar c = true) :
    48 ≤ c.toNat ∧ c.toNat ≤ 57 := by
  simp only [isDigitChar, Bool.and_eq_true, decide_eq_true_eq] at h
  exact h

/-- Characters with equal codes are equal. -/
theorem char_eq_of_toNat {a b : Char} (h : a.toNat = b.toNat) : a = b :=
  Char.ext (UInt32.ext h)

/-- Digit characters are not separators. -/
theorem notSep_of_digitChar (c : Char) (h : isDigitChar c = true) :
    isSepChar c = false := by
  by_contra hb
  rw [Bool.not_eq_false] at hb
  simp only [isSepChar, Bool.or_eq_true, beq_iff_eq] at hb
  rcases hb with ((((h1 | h1) | h1) | h1) | h1) <;> subst h1 <;>
    exact absurd h (by decide)

/-- Digit characters are neither X nor x. -/
theorem digitChar_not_X (c : Char) (h : isDigitChar c = true) :
    (c == 'X' || c == 'x') = false := by
  by_contra hb
  rw [Bool.not_eq_false] at hb
  simp only [Bool.or_eq_true, beq_iff_eq] at hb
  rcases hb with h1 | h1 <;> subst h1 <;> exact absurd h (by decide)

/-- Uppercasing leaves a digit character unchanged. -/
theorem jsToUpperChar_digit (c : Char) (h : isDigitChar c = true) :
    jsToUpperChar c = c := by
  obtain ⟨h1, h2⟩ := digit_toNat_bounds c h
  unfold jsToUpperChar
  rw [if_neg (by omega)]

/-- Parsing a digit character yields its value. -/
theorem jsParseDigit_digit (c : Char) (h : isDigitChar c = true) :
    jsParseDigit c = some (c.toNat - 48) := by
  unfold jsParseDigit
  rw [if_pos h]

/-- Code of a digit character built from a value below ten. -/
theorem digitChar_ofNat_toNat (k : ℕ) (hk : k ≤ 9) :
    (Char.ofNat (48 + k)).toNat = 48 + k := by
  interval_cases k <;> decide

/-- A character built from a value below ten is a digit. -/
theorem digitChar_ofNat_isDigit (k : ℕ) (hk : k ≤ 9) :
    isDigitChar (Char.ofNat (48 + k)) = true := by
  interval_cases k <;> decide

/-- Stripping separators from a separator-free list is the
identity. -/
theorem stripSep_of_not_sep (l : List Char)
    (h : ∀ c ∈ l, isSepChar c = false) : stripSep l = l :=
  List.filter_eq_self.mpr fun c hc => by
    rw [h c hc]
    rfl

/-- Stripping separators from an all-digit list is the identity. -/
theorem stripSep_all_digits (l : List Char)
    (h : ∀ c ∈ l, isDigitChar c = true) : stripSep l = l :=
  stripSep_of_not_sep l fun c hc => notSep_of_digitChar c (h c hc)

/-- The 13-style weighted sum of an all-digit list is defined. -/
theorem wsum13Aux_isSome (l : List Char) :
    ∀ i, (∀ c ∈ l, isDigitChar c = true) → ∃ s, wsum13Aux l i = some s := by
  induction l with
  | nil => exact fun i _ => ⟨0, rfl⟩
  | cons c cs ih =>
    intro i h
    obtain ⟨s, hs⟩ := ih (i + 1) (fun x hx => h x (List.mem_cons_of_mem _ hx))
    refine ⟨(c.toNat - 48) * (if i % 2 = 0 then 1 else 3) + s, ?_⟩
    unfold wsum13Aux
    rw [jsParseDigit_digit c (h c (List.mem_cons_self _ _)), hs]

/-- The 10-style weighted sum of an all-digit list is defined. -/
theorem wsum10Aux_isSome (l : List Char) :
    ∀ i, (∀ c ∈ l, isDigitChar c = true) → ∃ s, wsum10Aux l i = some s := by
  induction l with
  | nil => exact fun i _ => ⟨0, rfl⟩
  | cons c cs ih =>
    intro i h
    obtain ⟨s, hs⟩ := ih (i + 1) (fun x hx => h x (List.mem_cons_of_mem _ hx))
    refine ⟨(c.toNat - 48) * (10 - i) + s, ?_⟩
    unfold wsum10Aux
    rw [jsParseDigit_digit c (h c (List.mem_cons_self _ _)), hs]

/-- The regular-expression test passes on a nonempty all-digit list. -/
theorem regex_all_digits (l : List Char) (hne : l ≠ [])
    (h : ∀ c ∈ l, isDigitChar c = true) : regexDigitsOptX l = true := by
  unfold regexDigitsOptX
  rw [List.getLast?_eq_getLast_of_ne_nil hne]
  dsimp only
  rw [digitChar_not_X _ (h _ (List.getLast_mem hne))]
  simp only [Bool.false_eq_true, if_false]
  exact List.all_eq_true.mpr fun c hc => h c hc

/-- C10: every 10-character all-digit input, whether or not its ISBN-10
checksum is valid, is converted by isbn10to13 to a 13-character string
starting 978 that validateIsbn accepts. -/
theorem C10_convert_valid (ds : List Char) (hlen : ds.length = 10)
    (hd : ∀ c ∈ ds, isDigitChar c = true) :
    ∃ r, isbn10to13 ds = some r ∧ r.length = 13 ∧
      r.take 3 = ['9', '7', '8'] ∧ (validateIsbn r).valid = true := by
  have hstrip : stripSep ds = ds := stripSep_all_digits ds hd
  have hb : ∀ c ∈ ['9', '7', '8'] ++ ds.take 9, isDigitChar c = true := by
    intro c hc
    rcases List.mem_append.mp hc with hc | hc
    · simp only [List.mem_cons, List.not_mem_nil, or_false] at hc
      rcases hc with h1 | h1 | h1 <;> subst h1 <;> decide
    · exact hd c (List.take_subset 9 ds hc)
  obtain ⟨S, hS⟩ := wsum13Aux_isSome (['9', '7', '8'] ++ ds.take 9) 0 hb
  have hbl : (['9', '7', '8'] ++ ds.take 9).length = 12 := by
    simp [List.length_take, hlen]
  unfold isbn10to13
  rw [hstrip]
  rw [if_neg (show ¬ ds.length ≠ 10 by rw [hlen]; exact fun hh => hh rfl)]
  dsimp only
  rw [hS]
  have hk : (10 - S % 10) % 10 ≤ 9 :=
    Nat.le_of_lt_succ (Nat.mod_lt _ (by norm_num))
  have hcd := digitChar_ofNat_isDigit _ hk
  refine ⟨_, rfl, ?_, ?_, ?_⟩
  · simp [List.length_take, hlen]
  · rw [List.append_assoc]
    rfl
  · have hr_digits : ∀ c ∈ ['9', '7', '8'] ++ ds.take 9 ++
        [Char.ofNat (48 + (10 - S % 10) % 10)], isDigitChar c = true := by
      intro c hc
      rcases List.mem_append.mp hc with hc | hc
      · exact hb c hc
      · simp only [List.mem_cons, List.not_mem_nil, or_false] at hc
        subst hc
        exact hcd
    have hr_len : (['9', '7', '8'] ++ ds.take 9 ++
        [Char.ofNat (48 + (10 - S % 10) % 10)]).length = 13 := by
      simp [List.length_take, hlen]
    unfold validateIsbn
    rw [stripSep_of_not_sep _
      (fun c hc => notSep_of_digitChar c (hr_digits c hc))]
    rw [if_neg (show ¬ (['9', '7', '8'] ++ ds.take 9 ++
        [Char.ofNat (48 + (10 - S % 10) % 10)]).isEmpty = true by simp)]
    rw [regex_all_digits _ (by simp) hr_digits]
    rw [if_neg (show ¬ (!true) = true by decide)]
    rw [if_neg (show ¬ (['9', '7', '8'] ++ ds.take 9 ++
        [Char.ofNat (48 + (10 - S % 10) % 10)]).length = 10 by
      rw [hr_len]; exact fun hh => by exact absurd hh (by norm_num))]
    rw [if_pos hr_len]
    have htake : (['9', '7', '8'] ++ ds.take 9 ++
        [Char.ofNat (48 + (10 - S % 10) % 10)]).take 12 =
        ['9', '7', '8'] ++ ds.take 9 := by
      rw [← hbl]
      exact List.take_left _ _
    have hget : (['9', '7', '8'] ++ ds.take 9 ++
        [Char.ofNat (48 + (10 - S % 10) % 10)]).get? 12 =
        some (Char.ofNat (48 + (10 - S % 10) % 10)) := by
      rw [← hbl]
      exact List.get?_concat_length _ _
    rw [htake, hS, hget]
    simp [jsParseDigit_digit _ hcd, digitChar_ofNat_toNat _ hk]

/-- C5 counterexample: a 13-digit identifier with the unrecognized
initial digits 123 but a correct weighted checksum is accepted as valid
by validateIsbn, which performs no 978/979 check. -/
theorem C5_counterexample :
    (validateIsbn "1230000000000".data).valid = true ∧
    isbn13ChecksumOk "1230000000000".data = true ∧
    "1230000000000".data.take 3 ≠ ['9', '7', '8'] ∧
    "1230000000000".data.take 3 ≠ ['9', '7', '9'] := by
  decide

/-- C5 amended: on 13-character all-digit input, validateIsbn accepts
exactly when the 1,3,1,3,...-weighted checksum matches the final digit;
there is no condition on the initial digits. -/
theorem C5_amended (ds : List Char) (hlen : ds.length = 13)
    (hd : ∀ c ∈ ds, isDigitChar c = true) :
    (validateIsbn ds).valid = true ↔ isbn13ChecksumOk ds = true := by
  have hstrip := stripSep_all_digits ds hd
  have hne : ds ≠ [] := by
    intro h
    rw [h] at hlen
    simp at hlen
  obtain ⟨S, hS⟩ := wsum13Aux_isSome (ds.take 12) 0
    (fun c hc => hd c (List.take_subset _ _ hc))
  have h12 : 12 < ds.length := by omega
  obtain ⟨c12, hc12⟩ : ∃ c, ds.get? 12 = some c :=
    ⟨_, List.get?_eq_get h12⟩
  have hc12d : isDigitChar c12 = true :=
    hd c12 (List.get?_mem hc12)
  unfold validateIsbn isbn13ChecksumOk
  rw [hstrip]
  rw [if_neg (show ¬ ds.isEmpty = true by simp [List.isEmpty_iff, hne])]
  rw [regex_all_digits ds hne hd]
  rw [if_neg (show ¬ (!true) = true by decide)]
  rw [if_neg (show ¬ ds.length = 10 by rw [hlen]; norm_num)]
  rw [if_pos hlen]
  rw [hS, hc12]
  simp [jsParseDigit_digit c12 hc12d]
  split_ifs with hcond
  · simp [hcond]
  · simp [hcond]

/-- C5 witness: the amended equivalence evaluated at a concrete
13-digit identifier. -/
theorem C5_witness :
    (validateIsbn "1230000000000".data).valid = true ↔
      isbn13ChecksumOk "1230000000000".data = true :=
  C5_amended "1230000000000".data (by decide) (by decide)

/-- C4 counterexample: the identifier 000000006x (lowercase check
character) passes validateIsbn, but the round trip through both
conversions returns the uppercased 000000006X, not the original. -/
theorem C4_counterexample :
    (validateIsbn "000000006x".data).valid = true ∧
    (isbn10to13 "000000006x".data).bind isbn13to10 =
      some "000000006X".data ∧
    ¬ (isbn10to13 "000000006x".data).bind isbn13to10 =
      some "000000006x".data := by
  decide

/-- C4 amended: a canonical 10-character identifier — nine digits and a
digit-or-uppercase-X check character, no separators — that validateIsbn
accepts round-trips through isbn10to13 and isbn13to10 back to
itself. -/
theorem C4_roundTrip (e0 e1 e2 e3 e4 e5 e6 e7 e8 e9 : Char)
    (h0 : isDigitChar e0 = true) (h1 : isDigitChar e1 = true)
    (h2 : isDigitChar e2 = true) (h3 : isDigitChar e3 = true)
    (h4 : isDigitChar e4 = true) (h5 : isDigitChar e5 = true)
    (h6 : isDigitChar e6 = true) (h7 : isDigitChar e7 = true)
    (h8 : isDigitChar e8 = true)
    (h9 : isDigitChar e9 = true ∨ e9 = 'X')
    (hv : (validateIsbn
      [e0, e1, e2, e3, e4, e5, e6, e7, e8, e9]).valid = true) :
    (isbn10to13 [e0, e1, e2, e3, e4, e5, e6, e7, e8, e9]).bind isbn13to10 =
      some [e0, e1, e2, e3, e4, e5, e6, e7, e8, e9] := by
  have hd9sep : isSepChar e9 = false := by
    rcases h9 with h9 | h9
    · exact notSep_of_digitChar e9 h9
    · rw [h9]
      decide
  have hsep : ∀ c ∈ [e0, e1, e2, e3, e4, e5, e6, e7, e8, e9],
      isSepChar c = false := by
    intro c hc
    simp only [List.mem_cons, List.not_mem_nil, or_false] at hc
    rcases hc with h | h | h | h | h | h | h | h | h | h <;> subst h
    · exact notSep_of_digitChar _ h0
    · exact notSep_of_digitChar _ h1
    · exact notSep_of_digitChar _ h2
    · exact notSep_of_digitChar _ h3
    · exact notSep_of_digitChar _ h4
    · exact notSep_of_digitChar _ h5
    · exact notSep_of_digitChar _ h6
    · exact notSep_of_digitChar _ h7
    · exact notSep_of_digitChar _ h8
    · exact hd9sep
  have hdall : ∀ c ∈ [e0, e1, e2, e3, e4, e5, e6, e7, e8],
      isDigitChar c = true := by
    intro c hc
    simp only [List.mem_cons, List.not_mem_nil, or_false] at hc
    rcases hc with h | h | h | h | h | h | h | h | h <;> subst h <;>
      assumption
  have hstrip := stripSep_of_not_sep _ hsep
  have htake9 : [e0, e1, e2, e3, e4, e5, e6, e7, e8, e9].take 9 =
      [e0, e1, e2, e3, e4, e5, e6, e7, e8] := by simp
  have hget9 : [e0, e1, e2, e3, e4, e5, e6, e7, e8, e9].get? 9 =
      some e9 := by simp
  obtain ⟨S9, hS9⟩ := wsum10Aux_isSome [e0, e1, e2, e3, e4, e5, e6, e7, e8]
    0 hdall
  -- extract the checksum condition from validity
  unfold validateIsbn at hv
  rw [hstrip] at hv
  rw [if_neg (show ¬ 
      ([e0, e1, e2, e3, e4, e5, e6, e7, e8, e9]).isEmpty = true by simp)]
    at hv
  have hregex : regexDigitsOptX [e0, e1, e2, e3, e4, e5, e6, e7, e8, e9] =
      true := by
    unfold regexDigitsOptX
    have hlast : [e0, e1, e2, e3, e4, e5, e6, e7, e8, e9].getLast? =
        some e9 := by simp
    rw [hlast]
    dsimp only
    rcases h9 with h9d | h9X
    · rw [digitChar_not_X e9 h9d]
      simp only [Bool.false_eq_true, if_false]
      simp [h0, h1, h2, h3, h4, h5, h6, h7, h8, h9d]
    · subst h9X
      rw [show ((('X' : Char) == 'X') || (('X' : Char) == 'x')) = true from
        rfl]
      simp only [if_true]
      simp [h0, h1, h2, h3, h4, h5, h6, h7, h8]
  rw [hregex] at hv
  rw [if_neg (show ¬ (!true) = true by decide)] at hv
  rw [if_pos (show
      ([e0, e1, e2, e3, e4, e5, e6, e7, e8, e9]).length = 10 by simp)] at hv
  rw [htake9, hS9, hget9] at hv
  dsimp only at hv
  -- the weighted sum over 978 plus the nine digits
  have hb13 : ∀ c ∈ ['9', '7', '8'] ++
      [e0, e1, e2, e3, e4, e5, e6, e7, e8], isDigitChar c = true := by
    intro c hc
    rcases List.mem_append.mp hc with hc | hc
    · simp only [List.mem_cons, List.not_mem_nil, or_false] at hc
      rcases hc with h | h | h <;> subst h <;> decide
    · exact hdall c hc
  obtain ⟨S13, hS13⟩ := wsum13Aux_isSome
    (['9', '7', '8'] ++ [e0, e1, e2, e3, e4, e5, e6, e7, e8]) 0 hb13
  have hk13 : (10 - S13 % 10) % 10 ≤ 9 :=
    Nat.le_of_lt_succ (Nat.mod_lt _ (by norm_num))
  -- compute the 13-digit form
  have hE : isbn10to13 [e0, e1, e2, e3, e4, e5, e6, e7, e8, e9] =
      some (['9', '7', '8'] ++ [e0, e1, e2, e3, e4, e5, e6, e7, e8] ++
        [Char.ofNat (48 + (10 - S13 % 10) % 10)]) := by
    unfold isbn10to13
    rw [hstrip]
    rw [if_neg (show ¬
        ([e0, e1, e2, e3, e4, e5, e6, e7, e8, e9]).length ≠ 10 by simp)]
    dsimp only
    rw [htake9, hS13]
  rw [hE]
  show isbn13to10 (['9', '7', '8'] ++ [e0, e1, e2, e3, e4, e5, e6, e7, e8] ++
    [Char.ofNat (48 + (10 - S13 % 10) % 10)]) =
    some [e0, e1, e2, e3, e4, e5, e6, e7, e8, e9]
  have hcd13 : isDigitChar (Char.ofNat (48 + (10 - S13 % 10) % 10)) = true :=
    digitChar_ofNat_isDigit _ hk13
  unfold isbn13to10
  rw [stripSep_of_not_sep _ (by
    intro c hc
    rcases List.mem_append.mp hc with hc | hc
    · rcases List.mem_append.mp hc with hc | hc
      · simp only [List.mem_cons, List.not_mem_nil, or_false] at hc
        rcases hc with h | h | h <;> subst h <;> decide
      · exact notSep_of_digitChar c (hdall c hc)
    · simp only [List.mem_cons, List.not_mem_nil, or_false] at hc
      subst hc
      exact notSep_of_digitChar _ hcd13)]
  rw [if_neg (show ¬ (['9', '7', '8'] ++
      [e0, e1, e2, e3, e4, e5, e6, e7, e8] ++
      [Char.ofNat (48 + (10 - S13 % 10) % 10)]).length ≠ 13 by simp)]
  rw [if_neg (show ¬ (['9', '7', '8'] ++
      [e0, e1, e2, e3, e4, e5, e6, e7, e8] ++
      [Char.ofNat (48 + (10 - S13 % 10) % 10)]).take 3 ≠
      ['9', '7', '8'] by simp)]
  have hdrop : ((['9', '7', '8'] ++ [e0, e1, e2, e3, e4, e5, e6, e7, e8] ++
      [Char.ofNat (48 + (10 - S13 % 10) % 10)]).drop 3).take 9 =
      [e0, e1, e2, e3, e4, e5, e6, e7, e8] := by simp
  dsimp only
  rw [hdrop, hS9]
  dsimp only
  -- settle the check character
  rcases h9 with h9d | h9X
  · -- digit final character
    have hb9 := digit_toNat_bounds e9 h9d
    have hup : jsToUpperChar e9 = e9 := jsToUpperChar_digit e9 h9d
    rw [hup] at hv
    have hnotX : (e9 == 'X') = false :=
      (Bool.or_eq_false_iff.mp (digitChar_not_X e9 h9d)).1
    rw [hnotX] at hv
    simp only [Bool.false_eq_true, if_false] at hv
    rw [jsParseDigit_digit e9 h9d] at hv
    dsimp only at hv
    by_cases hcond : (S9 + (e9.toNat - 48)) % 11 = 0
    case neg =>
      rw [if_neg hcond] at hv
      exact absurd hv (by decide)
    rw [if_pos hcond] at hv
    by_cases hr0 : S9 % 11 = 0
    · rw [if_pos hr0]
      have he : e9 = '0' := char_eq_of_toNat (show e9.toNat = 48 by omega)
      rw [he]
      rfl
    · by_cases hr1 : S9 % 11 = 1
      · exfalso
        omega
      · rw [if_neg hr0, if_neg hr1]
        have hkk : 11 - S9 % 11 ≤ 9 := by omega
        have he : e9 = Char.ofNat (48 + (11 - S9 % 11)) :=
          char_eq_of_toNat (by
            rw [digitChar_ofNat_toNat _ hkk]
            omega)
        rw [← he]
        rfl
  · -- uppercase X final character
    subst h9X
    rw [show jsToUpperChar 'X' = 'X' from rfl] at hv
    rw [show (('X' : Char) == 'X') = true from rfl] at hv
    simp only [if_true] at hv
    by_cases hcond : (S9 + 10) % 11 = 0
    case neg =>
      rw [if_neg hcond] at hv
      exact absurd hv (by decide)
    have hr1 : S9 % 11 = 1 := by omega
    rw [if_neg (show ¬ S9 % 11 = 0 by omega), if_pos hr1]
    rfl

/-- C4 witness: the valid identifier 0306406152 round-trips. -/
theorem C4_witness :
    (isbn10to13 ['0', '3', '0', '6', '4', '0', '6', '1', '5', '2']).bind
      isbn13to10 =
      some ['0', '3', '0', '6', '4', '0', '6', '1', '5', '2'] :=
  C4_roundTrip '0' '3' '0' '6' '4' '0' '6' '1' '5' '2'
    (by decide) (by decide) (by decide) (by decide) (by decide) (by decide)
    (by decide) (by decide) (by decide) (Or.inl (by decide)) (by decide)

/-- C10 witness: 0000000001 has an invalid ISBN-10 checksum, yet it is
silently converted to a 13-digit identifier that validates. -/
theorem C10_witness :
    (validateIsbn ['0', '0', '0', '0', '0', '0', '0', '0', '0', '1']).valid =
      false ∧
    ∃ r, isbn10to13 ['0', '0', '0', '0', '0', '0', '0', '0', '0', '1'] =
        some r ∧ r.length = 13 ∧ r.take 3 = ['9', '7', '8'] ∧
        (validateIsbn r).valid = true :=
  ⟨by decide, C10_convert_valid ['0', '0', '0', '0', '0', '0', '0', '0', '0',
    '1'] (by decide) (by decide)⟩
